import Mathlib

/-!
Verification of the staged dataset-curation pipeline driver
(`dataset_curation/main_pipeline.py`).

The file shallowly embeds `main` and its helpers: filesystem paths are
lists of characters built exactly as the source builds them with
`os.path.join` and f-strings; the filesystem is an association list from
path to entry; collaborator modules (`bridge_runner`, `cropping`,
`vlm_processing`, `filtering`, `formatting`, `utils.read_text_list`) are
oracles supplying a returned Python value and a set of file writes; the
driver itself (`time_step`, `should_run`, `check_required_inputs`, the
stage traversal, the `except`/`finally` boundary and the cleanup loops)
is translated statement by statement into a state monad with abortive
exits (`sys.exit`) and exceptions.
-/

/-- Filesystem paths, as the character sequences the source builds. -/
abbrev FPath := List Char

/-- Characters of the literal path segment written in the source as a string. -/
def nIntermediate : FPath := ['i', 'n', 't', 'e', 'r', 'm', 'e', 'd', 'i', 'a', 't', 'e']

/-- Characters of the literal path segment written in the source as a string. -/
def nCroppedImages : FPath := ['c', 'r', 'o', 'p', 'p', 'e', 'd', '_', 'i', 'm', 'a', 'g', 'e', 's']

/-- Characters of the literal path segment written in the source as a string. -/
def nBridgeStage1Results : FPath := ['b', 'r', 'i', 'd', 'g', 'e', '_', 's', 't', 'a', 'g', 'e', '1', '_', 'r', 'e', 's', 'u', 'l', 't', 's']

/-- Characters of the literal path segment written in the source as a string. -/
def nCropDefinitions : FPath := ['c', 'r', 'o', 'p', '_', 'd', 'e', 'f', 'i', 'n', 'i', 't', 'i', 'o', 'n', 's']

/-- Characters of the literal path segment written in the source as a string. -/
def nBridgeStage2RawResults : FPath := ['b', 'r', 'i', 'd', 'g', 'e', '_', 's', 't', 'a', 'g', 'e', '2', '_', 'r', 'a', 'w', '_', 'r', 'e', 's', 'u', 'l', 't', 's']

/-- Characters of the literal path segment written in the source as a string. -/
def nBridgeStage2FilteredResults : FPath := ['b', 'r', 'i', 'd', 'g', 'e', '_', 's', 't', 'a', 'g', 'e', '2', '_', 'f', 'i', 'l', 't', 'e', 'r', 'e', 'd', '_', 'r', 'e', 's', 'u', 'l', 't', 's']

/-- Characters of the literal path segment written in the source as a string. -/
def nRawTail : FPath := ['_', 'r', 'a', 'w']

/-- Characters of the literal path segment written in the source as a string. -/
def nFilteredTail : FPath := ['_', 'f', 'i', 'l', 't', 'e', 'r', 'e', 'd']

/-- Characters of the literal path segment written in the source as a string. -/
def nVlmCombined : FPath := ['v', 'l', 'm', '_', 'c', 'o', 'm', 'b', 'i', 'n', 'e', 'd']

/-- Characters of the literal path segment written in the source as a string. -/
def nAgreedImageList : FPath := ['a', 'g', 'r', 'e', 'e', 'd', '_', 'i', 'm', 'a', 'g', 'e', '_', 'l', 'i', 's', 't']

/-- Characters of the literal path segment written in the source as a string. -/
def nAgreedAnnotations : FPath := ['a', 'g', 'r', 'e', 'e', 'd', '_', 'a', 'n', 'n', 'o', 't', 'a', 't', 'i', 'o', 'n', 's']

/-- Characters of the literal path segment written in the source as a string. -/
def nBlurAssessment : FPath := ['b', 'l', 'u', 'r', '_', 'a', 's', 's', 'e', 's', 's', 'm', 'e', 'n', 't']

/-- Characters of the literal path segment written in the source as a string. -/
def nTaggedAnnotationsIntermediate : FPath := ['t', 'a', 'g', 'g', 'e', 'd', '_', 'a', 'n', 'n', 'o', 't', 'a', 't', 'i', 'o', 'n', 's', '_', 'i', 'n', 't', 'e', 'r', 'm', 'e', 'd', 'i', 'a', 't', 'e']

/-- Characters of the literal path segment written in the source as a string. -/
def nRestorationAnnotationsIntermediate : FPath := ['r', 'e', 's', 't', 'o', 'r', 'a', 't', 'i', 'o', 'n', '_', 'a', 'n', 'n', 'o', 't', 'a', 't', 'i', 'o', 'n', 's', '_', 'i', 'n', 't', 'e', 'r', 'm', 'e', 'd', 'i', 'a', 't', 'e']

/-- Characters of the literal path segment written in the source as a string. -/
def nFullDataset : FPath := ['f', 'u', 'l', 'l', '_', 'd', 'a', 't', 'a', 's', 'e', 't']

/-- Characters of the literal path segment written in the source as a string. -/
def nRestorationDataset : FPath := ['r', 'e', 's', 't', 'o', 'r', 'a', 't', 'i', 'o', 'n', '_', 'd', 'a', 't', 'a', 's', 'e', 't']

/-- Characters of the literal path segment written in the source as a string. -/
def extJson : FPath := ['.', 'j', 's', 'o', 'n']

/-- Characters of the literal path segment written in the source as a string. -/
def extTxt : FPath := ['.', 't', 'x', 't']

/-- Characters of the literal path segment written in the source as a string. -/
def extCsv : FPath := ['.', 'c', 's', 'v']

/-- Characters of the literal path segment written in the source as a string. -/
def nBridgeStage1 : FPath := ['b', 'r', 'i', 'd', 'g', 'e', '_', 's', 't', 'a', 'g', 'e', '1']

/-- Characters of the literal path segment written in the source as a string. -/
def nBridgeStage2 : FPath := ['b', 'r', 'i', 'd', 'g', 'e', '_', 's', 't', 'a', 'g', 'e', '2']

/-- Characters of the literal path segment written in the source as a string. -/
def nTextDetectionResults : FPath := ['t', 'e', 'x', 't', '_', 'd', 'e', 't', 'e', 'c', 't', 'i', 'o', 'n', '_', 'r', 'e', 's', 'u', 'l', 't', 's', '.', 'j', 's', 'o', 'n']

/-- Embedding of `os.path.join` for a relative second component. -/
def pjoin (a b : FPath) : FPath := a ++ '/' :: b

/-- The configuration values the modelled region of `main` reads, after the
config file has been loaded, the CLI overrides applied, and the output
suffix computed (lines 64-75 of the source); `output_suffix` is the
already-sanitised suffix and `keep_intermediate_files` the value of
`config.get('keep_intermediate_files', True)`. -/
structure Cfg where
  sa1b_base_dir : FPath
  sa1b_subfolder : FPath
  intermediate_output_base_dir : FPath
  final_dataset_dir : FPath
  vlm1_name : FPath
  vlm2_name : FPath
  output_suffix : FPath
  keep_intermediate_files : Bool
deriving DecidableEq

/-- `intermediate_base = config['intermediate_output_base_dir'] + output_suffix`. -/
def intermediate_base (c : Cfg) : FPath := c.intermediate_output_base_dir ++ c.output_suffix

/-- `final_dataset_output_dir = config['final_dataset_dir'] + output_suffix`. -/
def final_dataset_output_dir (c : Cfg) : FPath := c.final_dataset_dir ++ c.output_suffix

/-- `intermediate_dir = os.path.join(intermediate_base, "intermediate")`. -/
def intermediate_dir (c : Cfg) : FPath := pjoin (intermediate_base c) nIntermediate

/-- `crop_image_dir = os.path.join(intermediate_base, "cropped_images")`. -/
def crop_image_dir (c : Cfg) : FPath := pjoin (intermediate_base c) nCroppedImages

/-- `sa1b_input_dir = os.path.join(config['sa1b_base_dir'], config['sa1b_subfolder'])`. -/
def sa1b_input_dir (c : Cfg) : FPath := pjoin c.sa1b_base_dir c.sa1b_subfolder

/-- FPath of `bridge_stage1_results{output_suffix}.json` inside `intermediate_dir`. -/
def stage1_json (c : Cfg) : FPath :=
  pjoin (intermediate_dir c) (nBridgeStage1Results ++ (c.output_suffix ++ extJson))

/-- FPath of `crop_definitions{output_suffix}.json` inside `intermediate_dir`. -/
def crop_definitions_path (c : Cfg) : FPath :=
  pjoin (intermediate_dir c) (nCropDefinitions ++ (c.output_suffix ++ extJson))

/-- FPath of `bridge_stage2_raw_results{output_suffix}.json`. -/
def stage2_raw_json (c : Cfg) : FPath :=
  pjoin (intermediate_dir c) (nBridgeStage2RawResults ++ (c.output_suffix ++ extJson))

/-- FPath of `bridge_stage2_filtered_results{output_suffix}.json`. -/
def stage2_filtered_json (c : Cfg) : FPath :=
  pjoin (intermediate_dir c) (nBridgeStage2FilteredResults ++ (c.output_suffix ++ extJson))

/-- FPath of `{vlm1_name}_raw{output_suffix}.json`. -/
def vlm1_raw_json (c : Cfg) : FPath :=
  pjoin (intermediate_dir c) (c.vlm1_name ++ (nRawTail ++ (c.output_suffix ++ extJson)))

/-- FPath of `{vlm2_name}_raw{output_suffix}.json`. -/
def vlm2_raw_json (c : Cfg) : FPath :=
  pjoin (intermediate_dir c) (c.vlm2_name ++ (nRawTail ++ (c.output_suffix ++ extJson)))

/-- FPath of `{vlm1_name}_filtered{output_suffix}.json`. -/
def vlm1_filtered_json (c : Cfg) : FPath :=
  pjoin (intermediate_dir c) (c.vlm1_name ++ (nFilteredTail ++ (c.output_suffix ++ extJson)))

/-- FPath of `{vlm2_name}_filtered{output_suffix}.json`. -/
def vlm2_filtered_json (c : Cfg) : FPath :=
  pjoin (intermediate_dir c) (c.vlm2_name ++ (nFilteredTail ++ (c.output_suffix ++ extJson)))

/-- FPath of `vlm_combined{output_suffix}.json`. -/
def combined_json (c : Cfg) : FPath :=
  pjoin (intermediate_dir c) (nVlmCombined ++ (c.output_suffix ++ extJson))

/-- FPath of `agreed_image_list{output_suffix}.txt`. -/
def agreed_list_txt (c : Cfg) : FPath :=
  pjoin (intermediate_dir c) (nAgreedImageList ++ (c.output_suffix ++ extTxt))

/-- FPath of `agreed_annotations{output_suffix}.json`. -/
def agreed_json (c : Cfg) : FPath :=
  pjoin (intermediate_dir c) (nAgreedAnnotations ++ (c.output_suffix ++ extJson))

/-- FPath of `blur_assessment{output_suffix}.csv`. -/
def blur_csv (c : Cfg) : FPath :=
  pjoin (intermediate_dir c) (nBlurAssessment ++ (c.output_suffix ++ extCsv))

/-- FPath of `tagged_annotations_intermediate{output_suffix}.json`. -/
def tagged_json_intermediate (c : Cfg) : FPath :=
  pjoin (intermediate_dir c) (nTaggedAnnotationsIntermediate ++ (c.output_suffix ++ extJson))

/-- FPath of `restoration_annotations_intermediate{output_suffix}.json`. -/
def restoration_json_intermediate (c : Cfg) : FPath :=
  pjoin (intermediate_dir c) (nRestorationAnnotationsIntermediate ++ (c.output_suffix ++ extJson))

/-- FPath of `full_dataset{output_suffix}.json` inside the final dataset directory. -/
def full_dataset_final_json (c : Cfg) : FPath :=
  pjoin (final_dataset_output_dir c) (nFullDataset ++ (c.output_suffix ++ extJson))

/-- FPath of `restoration_dataset{output_suffix}.json` inside the final dataset directory. -/
def restoration_dataset_final_json (c : Cfg) : FPath :=
  pjoin (final_dataset_output_dir c) (nRestorationDataset ++ (c.output_suffix ++ extJson))

/-- `stage1_output_dir = os.path.join(intermediate_dir, "bridge_stage1")`. -/
def stage1_output_dir (c : Cfg) : FPath := pjoin (intermediate_dir c) nBridgeStage1

/-- `stage2_output_dir = os.path.join(intermediate_dir, "bridge_stage2")`. -/
def stage2_output_dir (c : Cfg) : FPath := pjoin (intermediate_dir c) nBridgeStage2

/-- Expected Bridge stage-1 output: `os.path.join(stage1_output_dir, "text_detection_results.json")`. -/
def expected_stage1_output (c : Cfg) : FPath := pjoin (stage1_output_dir c) nTextDetectionResults

/-- Expected Bridge stage-2 output: `os.path.join(stage2_output_dir, "text_detection_results.json")`. -/
def expected_stage2_output (c : Cfg) : FPath := pjoin (stage2_output_dir c) nTextDetectionResults

/-- A filesystem entry: a regular file, or a directory with a number of
listing entries (`os.listdir` length). -/
inductive Entry where
  | fileE : Entry
  | dirE : Nat → Entry
deriving DecidableEq

/-- The filesystem, an association list from path to entry; the first
binding of a path is the current one. -/
abbrev FS := List (FPath × Entry)

/-- Look a path up in the filesystem. -/
def FS.find : FS → FPath → Option Entry
  | [], _ => none
  | kv :: r, p => if kv.1 = p then some kv.2 else FS.find r p

/-- Create or overwrite an entry. -/
def FS.set (fs : FS) (p : FPath) (e : Entry) : FS := (p, e) :: fs

/-- Remove every binding of a path (`os.remove` / `shutil.rmtree`). -/
def FS.erase : FS → FPath → FS
  | [], _ => []
  | kv :: r, p => if kv.1 = p then FS.erase r p else kv :: FS.erase r p

/-- `os.path.exists`. -/
def fsHas (fs : FS) (p : FPath) : Bool := (FS.find fs p).isSome

/-- `os.path.isdir(path) and os.listdir(path)`: an existing, non-empty directory. -/
def populatedDir (fs : FS) (p : FPath) : Bool :=
  match FS.find fs p with
  | some (Entry.dirE n) => n ≠ 0
  | _ => false

/-- The `files_to_remove` list of the cleanup block (source lines 456-461). -/
def files_to_remove (c : Cfg) : List FPath :=
  [stage1_json c, stage2_raw_json c, stage2_filtered_json c,
   vlm1_raw_json c, vlm2_raw_json c, vlm1_filtered_json c, vlm2_filtered_json c,
   combined_json c, agreed_list_txt c, agreed_json c, blur_csv c,
   tagged_json_intermediate c, restoration_json_intermediate c]

/-- The `dirs_to_remove` list of the cleanup block (source line 462). -/
def dirs_to_remove (c : Cfg) : List FPath :=
  [pjoin (intermediate_dir c) nBridgeStage1, pjoin (intermediate_dir c) nBridgeStage2]

/-- One cleanup deletion: remove the path if it exists (the loops of
source lines 463-470, whose guard is `os.path.exists`). -/
def removeStep (fs : FS) (p : FPath) : FS :=
  if (FS.find fs p).isSome then FS.erase fs p else fs

/-- Run the cleanup deletion loop over a list of paths. -/
def removeAll (ps : List FPath) (fs : FS) : FS := ps.foldl removeStep fs

/-- The filesystem effect of the enabled cleanup block: delete the
enumerated intermediate files, then the two raw output directories. -/
def cleanupFs (c : Cfg) (fs : FS) : FS :=
  removeAll (dirs_to_remove c) (removeAll (files_to_remove c) fs)

/-- Two character lists that agree on a common tail `t` but whose concrete
segments just before `t` end in different characters are different. This is
the engine behind the by-construction separation of final outputs from the
cleanup deletion set. -/
theorem pathsNe (a b v w l m t : FPath) (x y : Char)
    (hl : l.getLast? = some x) (hm : m.getLast? = some y) (hxy : x ≠ y) :
    a ++ (v ++ (l ++ t)) ≠ b ++ (w ++ (m ++ t)) := by
  intro heq
  have hnl : l ≠ [] := by intro h; rw [h] at hl; simp at hl
  have hnm : m ≠ [] := by intro h; rw [h] at hm; simp at hm
  have hgl : l.getLast hnl = x := by
    have h := List.getLast?_eq_getLast l hnl
    rw [h] at hl
    exact Option.some.inj hl
  have hgm : m.getLast hnm = y := by
    have h := List.getLast?_eq_getLast m hnm
    rw [h] at hm
    exact Option.some.inj hm
  have hl2 : l.dropLast ++ [x] = l := by
    rw [← hgl]; exact List.dropLast_append_getLast hnl
  have hm2 : m.dropLast ++ [y] = m := by
    rw [← hgm]; exact List.dropLast_append_getLast hnm
  rw [← hl2, ← hm2] at heq
  have heq2 : ((a ++ v) ++ l.dropLast) ++ (x :: t) = ((b ++ w) ++ m.dropLast) ++ (y :: t) := by
    simpa [List.append_assoc] using heq
  have hlen : (x :: t).length = (y :: t).length := by simp
  have h3 := (List.append_inj' heq2 hlen).2
  injection h3 with h4 h5
  exact hxy h4

/-- Erasing one path leaves the lookup of any other path unchanged. -/
theorem find_erase_ne (fs : FS) (q p : FPath) (h : q ≠ p) :
    FS.find (FS.erase fs q) p = FS.find fs p := by
  induction fs with
  | nil => rfl
  | cons kv r ih =>
    simp only [FS.erase]
    by_cases h1 : kv.1 = q
    · rw [if_pos h1, ih]
      simp only [FS.find]
      have h2 : ¬ kv.1 = p := by rw [h1]; exact h
      rw [if_neg h2]
    · rw [if_neg h1]
      simp only [FS.find]
      by_cases h2 : kv.1 = p
      · rw [if_pos h2, if_pos h2]
      · rw [if_neg h2, if_neg h2, ih]

/-- A single guarded cleanup deletion leaves other paths untouched. -/
theorem find_removeStep_ne (fs : FS) (q p : FPath) (h : q ≠ p) :
    FS.find (removeStep fs q) p = FS.find fs p := by
  unfold removeStep
  split
  · exact find_erase_ne fs q p h
  · rfl

/-- A path not in the deletion list survives the cleanup loop with its
entry unchanged. -/
theorem find_removeAll_of_not_mem (ps : List FPath) (fs : FS) (p : FPath) (h : p ∉ ps) :
    FS.find (removeAll ps fs) p = FS.find fs p := by
  induction ps generalizing fs with
  | nil => rfl
  | cons q qs ih =>
    have hq : q ≠ p := fun hqp => h (hqp ▸ List.mem_cons_self q qs)
    have hqs : p ∉ qs := fun hm => h (List.mem_cons_of_mem q hm)
    unfold removeAll at *
    rw [List.foldl_cons]
    rw [ih (removeStep fs q) hqs]
    exact find_removeStep_ne fs q p hq

/-- Claim C7: with cleanup enabled the deletion set enumerates only the
thirteen intermediate files and the two raw per-pass output directories;
by construction of the paths (for every configuration and suffix) neither
final-dataset document is in that set, and the cleanup pass leaves both
final-dataset documents exactly as they were on disk. -/
theorem c7_cleanup_spares_finals (c : Cfg) (fs : FS) :
    (full_dataset_final_json c ∉ files_to_remove c ∧
     restoration_dataset_final_json c ∉ files_to_remove c ∧
     full_dataset_final_json c ∉ dirs_to_remove c ∧
     restoration_dataset_final_json c ∉ dirs_to_remove c) ∧
    FS.find (cleanupFs c fs) (full_dataset_final_json c) =
      FS.find fs (full_dataset_final_json c) ∧
    FS.find (cleanupFs c fs) (restoration_dataset_final_json c) =
      FS.find fs (restoration_dataset_final_json c) := by
  have hf : full_dataset_final_json c ∉ files_to_remove c := by
    intro hmem
    simp only [files_to_remove, List.mem_cons, List.not_mem_nil, or_false] at hmem
    rcases hmem with h|h|h|h|h|h|h|h|h|h|h|h|h
    · exact pathsNe (final_dataset_output_dir c) (intermediate_dir c) [] [] ('/' :: nFullDataset) ('/' :: nBridgeStage1Results) (c.output_suffix ++ extJson) 't' 's' (by decide) (by decide) (by decide) h
    · exact pathsNe (final_dataset_output_dir c) (intermediate_dir c) [] [] ('/' :: nFullDataset) ('/' :: nBridgeStage2RawResults) (c.output_suffix ++ extJson) 't' 's' (by decide) (by decide) (by decide) h
    · exact pathsNe (final_dataset_output_dir c) (intermediate_dir c) [] [] ('/' :: nFullDataset) ('/' :: nBridgeStage2FilteredResults) (c.output_suffix ++ extJson) 't' 's' (by decide) (by decide) (by decide) h
    · exact pathsNe (final_dataset_output_dir c) (intermediate_dir c) [] ('/' :: c.vlm1_name) ('/' :: nFullDataset) nRawTail (c.output_suffix ++ extJson) 't' 'w' (by decide) (by decide) (by decide) h
    · exact pathsNe (final_dataset_output_dir c) (intermediate_dir c) [] ('/' :: c.vlm2_name) ('/' :: nFullDataset) nRawTail (c.output_suffix ++ extJson) 't' 'w' (by decide) (by decide) (by decide) h
    · exact pathsNe (final_dataset_output_dir c) (intermediate_dir c) [] ('/' :: c.vlm1_name) ('/' :: nFullDataset) nFilteredTail (c.output_suffix ++ extJson) 't' 'd' (by decide) (by decide) (by decide) h
    · exact pathsNe (final_dataset_output_dir c) (intermediate_dir c) [] ('/' :: c.vlm2_name) ('/' :: nFullDataset) nFilteredTail (c.output_suffix ++ extJson) 't' 'd' (by decide) (by decide) (by decide) h
    · exact pathsNe (final_dataset_output_dir c) (intermediate_dir c) [] [] ('/' :: nFullDataset) ('/' :: nVlmCombined) (c.output_suffix ++ extJson) 't' 'd' (by decide) (by decide) (by decide) h
    · exact pathsNe (final_dataset_output_dir c) (intermediate_dir c) (('/' :: nFullDataset) ++ c.output_suffix) (('/' :: nAgreedImageList) ++ c.output_suffix) extJson extTxt [] 'n' 't' (by decide) (by decide) (by decide) h
    · exact pathsNe (final_dataset_output_dir c) (intermediate_dir c) [] [] ('/' :: nFullDataset) ('/' :: nAgreedAnnotations) (c.output_suffix ++ extJson) 't' 's' (by decide) (by decide) (by decide) h
    · exact pathsNe (final_dataset_output_dir c) (intermediate_dir c) (('/' :: nFullDataset) ++ c.output_suffix) (('/' :: nBlurAssessment) ++ c.output_suffix) extJson extCsv [] 'n' 'v' (by decide) (by decide) (by decide) h
    · exact pathsNe (final_dataset_output_dir c) (intermediate_dir c) [] [] ('/' :: nFullDataset) ('/' :: nTaggedAnnotationsIntermediate) (c.output_suffix ++ extJson) 't' 'e' (by decide) (by decide) (by decide) h
    · exact pathsNe (final_dataset_output_dir c) (intermediate_dir c) [] [] ('/' :: nFullDataset) ('/' :: nRestorationAnnotationsIntermediate) (c.output_suffix ++ extJson) 't' 'e' (by decide) (by decide) (by decide) h
  have hr : restoration_dataset_final_json c ∉ files_to_remove c := by
    intro hmem
    simp only [files_to_remove, List.mem_cons, List.not_mem_nil, or_false] at hmem
    rcases hmem with h|h|h|h|h|h|h|h|h|h|h|h|h
    · exact pathsNe (final_dataset_output_dir c) (intermediate_dir c) [] [] ('/' :: nRestorationDataset) ('/' :: nBridgeStage1Results) (c.output_suffix ++ extJson) 't' 's' (by decide) (by decide) (by decide) h
    · exact pathsNe (final_dataset_output_dir c) (intermediate_dir c) [] [] ('/' :: nRestorationDataset) ('/' :: nBridgeStage2RawResults) (c.output_suffix ++ extJson) 't' 's' (by decide) (by decide) (by decide) h
    · exact pathsNe (final_dataset_output_dir c) (intermediate_dir c) [] [] ('/' :: nRestorationDataset) ('/' :: nBridgeStage2FilteredResults) (c.output_suffix ++ extJson) 't' 's' (by decide) (by decide) (by decide) h
    · exact pathsNe (final_dataset_output_dir c) (intermediate_dir c) [] ('/' :: c.vlm1_name) ('/' :: nRestorationDataset) nRawTail (c.output_suffix ++ extJson) 't' 'w' (by decide) (by decide) (by decide) h
    · exact pathsNe (final_dataset_output_dir c) (intermediate_dir c) [] ('/' :: c.vlm2_name) ('/' :: nRestorationDataset) nRawTail (c.output_suffix ++ extJson) 't' 'w' (by decide) (by decide) (by decide) h
    · exact pathsNe (final_dataset_output_dir c) (intermediate_dir c) [] ('/' :: c.vlm1_name) ('/' :: nRestorationDataset) nFilteredTail (c.output_suffix ++ extJson) 't' 'd' (by decide) (by decide) (by decide) h
    · exact pathsNe (final_dataset_output_dir c) (intermediate_dir c) [] ('/' :: c.vlm2_name) ('/' :: nRestorationDataset) nFilteredTail (c.output_suffix ++ extJson) 't' 'd' (by decide) (by decide) (by decide) h
    · exact pathsNe (final_dataset_output_dir c) (intermediate_dir c) [] [] ('/' :: nRestorationDataset) ('/' :: nVlmCombined) (c.output_suffix ++ extJson) 't' 'd' (by decide) (by decide) (by decide) h
    · exact pathsNe (final_dataset_output_dir c) (intermediate_dir c) (('/' :: nRestorationDataset) ++ c.output_suffix) (('/' :: nAgreedImageList) ++ c.output_suffix) extJson extTxt [] 'n' 't' (by decide) (by decide) (by decide) h
    · exact pathsNe (final_dataset_output_dir c) (intermediate_dir c) [] [] ('/' :: nRestorationDataset) ('/' :: nAgreedAnnotations) (c.output_suffix ++ extJson) 't' 's' (by decide) (by decide) (by decide) h
    · exact pathsNe (final_dataset_output_dir c) (intermediate_dir c) (('/' :: nRestorationDataset) ++ c.output_suffix) (('/' :: nBlurAssessment) ++ c.output_suffix) extJson extCsv [] 'n' 'v' (by decide) (by decide) (by decide) h
    · exact pathsNe (final_dataset_output_dir c) (intermediate_dir c) [] [] ('/' :: nRestorationDataset) ('/' :: nTaggedAnnotationsIntermediate) (c.output_suffix ++ extJson) 't' 'e' (by decide) (by decide) (by decide) h
    · exact pathsNe (final_dataset_output_dir c) (intermediate_dir c) [] [] ('/' :: nRestorationDataset) ('/' :: nRestorationAnnotationsIntermediate) (c.output_suffix ++ extJson) 't' 'e' (by decide) (by decide) (by decide) h
  have hd : full_dataset_final_json c ∉ dirs_to_remove c := by
    intro hmem
    simp only [dirs_to_remove, List.mem_cons, List.not_mem_nil, or_false] at hmem
    rcases hmem with h|h
    · exact pathsNe (final_dataset_output_dir c) (intermediate_dir c) (('/' :: nFullDataset) ++ c.output_suffix) [] extJson ('/' :: nBridgeStage1) [] 'n' '1' (by decide) (by decide) (by decide) h
    · exact pathsNe (final_dataset_output_dir c) (intermediate_dir c) (('/' :: nFullDataset) ++ c.output_suffix) [] extJson ('/' :: nBridgeStage2) [] 'n' '2' (by decide) (by decide) (by decide) h
  have hrd : restoration_dataset_final_json c ∉ dirs_to_remove c := by
    intro hmem
    simp only [dirs_to_remove, List.mem_cons, List.not_mem_nil, or_false] at hmem
    rcases hmem with h|h
    · exact pathsNe (final_dataset_output_dir c) (intermediate_dir c) (('/' :: nRestorationDataset) ++ c.output_suffix) [] extJson ('/' :: nBridgeStage1) [] 'n' '1' (by decide) (by decide) (by decide) h
    · exact pathsNe (final_dataset_output_dir c) (intermediate_dir c) (('/' :: nRestorationDataset) ++ c.output_suffix) [] extJson ('/' :: nBridgeStage2) [] 'n' '2' (by decide) (by decide) (by decide) h
  refine ⟨⟨hf, hr, hd, hrd⟩, ?_, ?_⟩
  · unfold cleanupFs
    rw [find_removeAll_of_not_mem _ _ _ hd, find_removeAll_of_not_mem _ _ _ hf]
  · unfold cleanupFs
    rw [find_removeAll_of_not_mem _ _ _ hrd, find_removeAll_of_not_mem _ _ _ hr]


/-- Python values the engine inspects: `None`, booleans, strings and
collections (the engine only ever looks at emptiness, so a collection is
modelled by its length). -/
inductive PyVal where
  | noneV : PyVal
  | boolV : Bool → PyVal
  | strV : List Char → PyVal
  | listV : Nat → PyVal
deriving DecidableEq

/-- Python truthiness of the modelled values. -/
def truthy : PyVal → Bool
  | PyVal.noneV => false
  | PyVal.boolV b => b
  | PyVal.strV s => !s.isEmpty
  | PyVal.listV n => n != 0

/-- The twelve stage names of `valid_stages`, in their fixed order. -/
inductive Stage where
  | start | cropping | bridge_stage2 | filter_duplicates
  | vlm1_recognition | vlm2_recognition | vlm_filtering | vlm_comparison
  | agreement_extraction | blur_assessment | blur_tag_filter | final_formatting
deriving DecidableEq

/-- `valid_stages.index`, the ordinal of a stage in the fixed order. -/
def Stage.idx : Stage → Nat
  | Stage.start => 0
  | Stage.cropping => 1
  | Stage.bridge_stage2 => 2
  | Stage.filter_duplicates => 3
  | Stage.vlm1_recognition => 4
  | Stage.vlm2_recognition => 5
  | Stage.vlm_filtering => 6
  | Stage.vlm_comparison => 7
  | Stage.agreement_extraction => 8
  | Stage.blur_assessment => 9
  | Stage.blur_tag_filter => 10
  | Stage.final_formatting => 11

/-- The parsed CLI arguments the traversal reads. `argparse` has already
restricted both stage arguments to `valid_stages` (`choices=`), which the
`Stage` type makes intrinsic, so the `ValueError` branches of the source
are unreachable. -/
structure ArgsV where
  start_from : Stage
  run_only_stage : Option Stage
deriving DecidableEq

/-- `should_run` (source lines 141-146): a stage runs iff its index is at
least the start index. -/
def should_run (a : ArgsV) (s : Stage) : Bool := a.start_from.idx ≤ s.idx

/-- The keys of the `pipeline_steps` dictionary. -/
inductive Key where
  | stage1_json_temp | stage1_json | crop_image_dir
  | stage2_raw_json_temp | stage2_raw_json | stage2_filtered_json
  | vlm1_raw_json | vlm2_raw_json | vlm1_filtered_json | vlm2_filtered_json
  | combined_json | agreed_list_txt | agreed_json | blur_csv
  | tagged_json_intermediate | restoration_json_intermediate
  | full_dataset_final_json | restoration_dataset_final_json
deriving DecidableEq

/-- `pipeline_steps`, a dictionary from key to Python value; the first
binding of a key is the current one. -/
abbrev Steps := List (Key × PyVal)

/-- Dictionary lookup in `pipeline_steps`. -/
def Steps.find : Steps → Key → Option PyVal
  | [], _ => none
  | kv :: r, k => if kv.1 = k then some kv.2 else Steps.find r k

/-- One collaborator invocation made through `time_step`, in source order. -/
inductive StepId where
  | bridge1 | defineCrops | createCrops | bridge2 | filterDup
  | vlm1Rec | vlm2Rec | filterEmpty1 | filterEmpty2 | compareMerge
  | identifyAgreed | extractAgreed | blurAssess | tagBlur | filterBlur
  | formatFull | formatRestoration
deriving DecidableEq

/-- The warnings the traversal can log. -/
inductive Warn where
  | noCropDefsGenerated | skipCreateCropImages | stage1TargetExists | stage2TargetExists
deriving DecidableEq

/-- The exceptions (Python `Exception` subclasses) the traversal can raise:
the `RuntimeError`s of `time_step` and the detection stages, the
`KeyError` of a missing `pipeline_steps` key, and the failed agreed-list
read of step 12. -/
inductive Err where
  | stepFailed : StepId → Err
  | stage1OutputNotFound : Err
  | stage2OutputNotFound : Err
  | keyErr : Key → Err
  | readAgreedListFailed : Err
deriving DecidableEq

/-- Abortive control flow: `sys.exit(code)` (a `SystemExit`, which the
`except Exception` clause does not catch) or a raised exception. -/
inductive Abort where
  | sysExit : Nat → Abort
  | exc : Err → Abort
deriving DecidableEq

/-- Observable events of a run, in chronological order. `stageEntered`
mirrors the unconditional `current_stage_name = ...` assignments. -/
inductive Event where
  | stageEntered : Stage → Event
  | invoked : StepId → Event
  | stepFailedLog : StepId → Event
  | warned : Warn → Event
  | checkingInputs : Stage → Event
  | missingInput : FPath → Event
  | exitByRequest : Stage → Event
  | completedOk : Event
  | errorCaught : Err → Event
  | finallyEntered : Event
  | cleaningUp : Event
  | cliOrderingError : Event
deriving DecidableEq

/-- The mutable state of a run: the filesystem, the event log, and
`pipeline_steps`. -/
structure St where
  fs : FS
  events : List Event
  steps : Steps
deriving DecidableEq

/-- The run monad: state plus abortive exit, with the state at the moment
of an abort preserved (the `finally` block observes it). -/
def M (α : Type) : Type := St → Except Abort α × St

instance : Monad M where
  pure a := fun st => (Except.ok a, st)
  bind x f := fun st =>
    match x st with
    | (Except.ok a, st1) => f a st1
    | (Except.error e, st1) => (Except.error e, st1)

/-- Unfolding lemma for the run monad's bind. -/
theorem M.bind_apply {α β : Type} (x : M α) (f : α → M β) (st : St) :
    (x >>= f) st = match x st with
      | (Except.ok a, st1) => f a st1
      | (Except.error e, st1) => (Except.error e, st1) := rfl

/-- Unfolding lemma for the run monad's pure. -/
theorem M.pure_apply {α : Type} (a : α) (st : St) :
    (pure a : M α) st = (Except.ok a, st) := rfl

/-- Applying an if-then-else of monadic actions to a state. -/
theorem M.ite_app {α : Type} (p : Prop) [Decidable p] (t e : M α) (st : St) :
    (if p then t else e) st = if p then t st else e st := by
  by_cases h : p
  · rw [if_pos h, if_pos h]
  · rw [if_neg h, if_neg h]

/-- Append an event to the log (a `logging` call the model observes). -/
def logE (e : Event) : M Unit :=
  fun st => (Except.ok (), { st with events := st.events ++ [e] })

/-- Abort (raise an exception or `sys.exit`). -/
def throwA {α : Type} (a : Abort) : M α := fun st => (Except.error a, st)

/-- Filesystem effect of a collaborator's writes. -/
def applyWritesFs (ws : List (FPath × Entry)) (fs : FS) : FS :=
  ws.foldl (fun f pe => FS.set f pe.1 pe.2) fs

/-- Perform a collaborator's writes. -/
def applyWrites (ws : List (FPath × Entry)) : M Unit :=
  fun st => (Except.ok (), { st with fs := applyWritesFs ws st.fs })

/-- `os.path.exists` inside the run. -/
def fsExistsM (p : FPath) : M Bool := fun st => (Except.ok (fsHas st.fs p), st)

/-- `shutil.move(src, dst)` (the source only calls it behind an existence
check on `src`). -/
def fsMove (src dst : FPath) : M Unit := fun st =>
  match FS.find st.fs src with
  | some e => (Except.ok (), { st with fs := FS.set (FS.erase st.fs src) dst e })
  | none => (Except.ok (), st)

/-- `shutil.rmtree(path, ignore_errors=True)`. -/
def fsRmtreeM (p : FPath) : M Unit :=
  fun st => (Except.ok (), { st with fs := FS.erase st.fs p })

/-- `utils.write_json(..., path)`: creates the file. -/
def fsWriteJson (p : FPath) : M Unit :=
  fun st => (Except.ok (), { st with fs := FS.set st.fs p Entry.fileE })

/-- `pipeline_steps[k]`: raises `KeyError` when absent. -/
def stepsGet (k : Key) : M PyVal := fun st =>
  match Steps.find st.steps k with
  | some v => (Except.ok v, st)
  | none => (Except.error (Abort.exc (Err.keyErr k)), st)

/-- `pipeline_steps[k] = v`. -/
def stepsSet (k : Key) (v : PyVal) : M Unit :=
  fun st => (Except.ok (), { st with steps := (k, v) :: st.steps })

/-- `k in pipeline_steps`. -/
def stepsContains (k : Key) : M Bool :=
  fun st => (Except.ok (Steps.find st.steps k).isSome, st)

/-- The collaborator oracle: for each invocation, the Python value the
collaborator returns and the file writes it performs; `readTextList` is
the result of `utils.read_text_list` in step 12. -/
structure Oracle where
  ret : StepId → PyVal
  writes : StepId → List (FPath × Entry)
  readTextList : PyVal

/-- `time_step` (source lines 20-31): log, invoke the collaborator (its
writes land on disk first), and raise `RuntimeError` iff the returned
value `is None`; any other value, truthy or not, is returned unchanged. -/
def time_step (o : Oracle) (sid : StepId) : M PyVal := do
  logE (Event.invoked sid)
  applyWrites (o.writes sid)
  let result := o.ret sid
  if result = PyVal.noneV then do
    logE (Event.stepFailedLog sid)
    throwA (Abort.exc (Err.stepFailed sid))
  else
    pure result

/-- One required-input check of `check_required_inputs`: a `check_and_set`
(`os.path.exists`) or a `check_dir_and_set` (existing non-empty directory). -/
inductive Req where
  | fileReq : FPath → Req
  | dirReq : FPath → Req
deriving DecidableEq

/-- The path a required-input check looks at. -/
def Req.path : Req → FPath
  | Req.fileReq p => p
  | Req.dirReq p => p

/-- Whether a required-input check passes on a filesystem, exactly as the
source tests it: `check_and_set` uses `os.path.exists`, `check_dir_and_set`
uses `os.path.isdir(path) and os.listdir(path)`. -/
def reqSatisfied (fs : FS) : Req → Bool
  | Req.fileReq p => fsHas fs p
  | Req.dirReq p => populatedDir fs p

/-- The `if`/`elif` chain of `check_required_inputs` (source lines
160-185), one list of checks per start stage, in source order. -/
def requiredInputs (c : Cfg) : Stage → List Req
  | Stage.start => []
  | Stage.cropping => [Req.fileReq (stage1_json c)]
  | Stage.bridge_stage2 => [Req.dirReq (crop_image_dir c)]
  | Stage.filter_duplicates => [Req.fileReq (stage2_raw_json c)]
  | Stage.vlm1_recognition =>
      [Req.fileReq (stage2_filtered_json c), Req.dirReq (crop_image_dir c)]
  | Stage.vlm2_recognition =>
      [Req.fileReq (stage2_filtered_json c), Req.dirReq (crop_image_dir c),
       Req.fileReq (vlm1_raw_json c)]
  | Stage.vlm_filtering => [Req.fileReq (vlm1_raw_json c), Req.fileReq (vlm2_raw_json c)]
  | Stage.vlm_comparison =>
      [Req.fileReq (vlm1_filtered_json c), Req.fileReq (vlm2_filtered_json c)]
  | Stage.agreement_extraction => [Req.fileReq (combined_json c)]
  | Stage.blur_assessment =>
      [Req.fileReq (agreed_json c), Req.fileReq (agreed_list_txt c),
       Req.dirReq (crop_image_dir c)]
  | Stage.blur_tag_filter => [Req.fileReq (agreed_json c), Req.fileReq (blur_csv c)]
  | Stage.final_formatting =>
      [Req.fileReq (tagged_json_intermediate c),
       Req.fileReq (restoration_json_intermediate c)]

/-- The accumulating check loop of `check_required_inputs`: every check
runs, each failure is logged, and the returned flag is true only when all
checks passed (`required_ok`). -/
def checksLoop : List Req → M Bool
  | [] => pure true
  | r :: rs => do
      let sat ← (fun st => (Except.ok (reqSatisfied st.fs r), st) : M Bool)
      if sat then
        checksLoop rs
      else do
        logE (Event.missingInput r.path)
        let _rest ← checksLoop rs
        pure false

/-- `check_required_inputs` (source lines 148-188): run every declared
check for the start stage, log all missing inputs, and `sys.exit(1)` if
any check failed. -/
def check_required_inputs (c : Cfg) (s : Stage) : M Unit := do
  logE (Event.checkingInputs s)
  let ok ← checksLoop (requiredInputs c s)
  if ok then pure () else throwA (Abort.sysExit 1)

/-- The per-stage `if args.run_only_stage == current_stage_name` early
exit repeated after every stage block: log and `sys.exit(0)`. -/
def runOnlyExit (a : ArgsV) (s : Stage) : M Unit := do
  if a.run_only_stage = some s then do
    logE (Event.exitByRequest s)
    throwA (Abort.sysExit 0)

/-- The `elif`-adoption a skipped stage performs on `pipeline_steps`
(source lines 217-218, 250-251, 274, 289, 306, 323, 342-344, 358-359,
379-381, 400-401, 420-422): bind the stage's deterministic default output
path(s) when the key is not yet present. -/
def adoptDefaults (c : Cfg) : Stage → Steps → Steps
  | Stage.start, sp =>
      if Steps.find sp Key.stage1_json = none then
        (Key.stage1_json, PyVal.strV (stage1_json c)) :: sp
      else sp
  | Stage.cropping, sp =>
      if Steps.find sp Key.crop_image_dir = none then
        (Key.crop_image_dir, PyVal.strV (crop_image_dir c)) :: sp
      else sp
  | Stage.bridge_stage2, sp =>
      if Steps.find sp Key.stage2_raw_json = none then
        (Key.stage2_raw_json, PyVal.strV (stage2_raw_json c)) :: sp
      else sp
  | Stage.filter_duplicates, sp =>
      if Steps.find sp Key.stage2_filtered_json = none then
        (Key.stage2_filtered_json, PyVal.strV (stage2_filtered_json c)) :: sp
      else sp
  | Stage.vlm1_recognition, sp =>
      if Steps.find sp Key.vlm1_raw_json = none then
        (Key.vlm1_raw_json, PyVal.strV (vlm1_raw_json c)) :: sp
      else sp
  | Stage.vlm2_recognition, sp =>
      if Steps.find sp Key.vlm2_raw_json = none then
        (Key.vlm2_raw_json, PyVal.strV (vlm2_raw_json c)) :: sp
      else sp
  | Stage.vlm_filtering, sp =>
      if Steps.find sp Key.vlm1_filtered_json = none then
        (Key.vlm2_filtered_json, PyVal.strV (vlm2_filtered_json c)) ::
          (Key.vlm1_filtered_json, PyVal.strV (vlm1_filtered_json c)) :: sp
      else sp
  | Stage.vlm_comparison, sp =>
      if Steps.find sp Key.combined_json = none then
        (Key.combined_json, PyVal.strV (combined_json c)) :: sp
      else sp
  | Stage.agreement_extraction, sp =>
      if Steps.find sp Key.agreed_list_txt = none then
        (Key.agreed_json, PyVal.strV (agreed_json c)) ::
          (Key.agreed_list_txt, PyVal.strV (agreed_list_txt c)) :: sp
      else sp
  | Stage.blur_assessment, sp =>
      if Steps.find sp Key.blur_csv = none then
        (Key.blur_csv, PyVal.strV (blur_csv c)) :: sp
      else sp
  | Stage.blur_tag_filter, sp =>
      if Steps.find sp Key.tagged_json_intermediate = none then
        (Key.restoration_json_intermediate, PyVal.strV (restoration_json_intermediate c)) ::
          (Key.tagged_json_intermediate, PyVal.strV (tagged_json_intermediate c)) :: sp
      else sp
  | Stage.final_formatting, sp => sp

/-- One stage block of the traversal (source lines 196-440), translated
statement by statement; the `current_stage_name = ...` assignment at the
head of each block is observed as a `stageEntered` event. -/
def runStage (c : Cfg) (a : ArgsV) (o : Oracle) : Stage → M Unit
  | Stage.start => do
      logE (Event.stageEntered Stage.start)
      if should_run a Stage.start then do
        let r ← time_step o StepId.bridge1
        stepsSet Key.stage1_json_temp r
        if (← fsExistsM (expected_stage1_output c)) then do
          fsMove (expected_stage1_output c) (stage1_json c)
          stepsSet Key.stage1_json (PyVal.strV (stage1_json c))
          if !c.keep_intermediate_files then
            fsRmtreeM (stage1_output_dir c)
        else if (← fsExistsM (stage1_json c)) then do
          logE (Event.warned Warn.stage1TargetExists)
          stepsSet Key.stage1_json (PyVal.strV (stage1_json c))
        else
          throwA (Abort.exc Err.stage1OutputNotFound)
        runOnlyExit a Stage.start
      else do
        if !(← stepsContains Key.stage1_json) then
          stepsSet Key.stage1_json (PyVal.strV (stage1_json c))
  | Stage.cropping => do
      logE (Event.stageEntered Stage.cropping)
      if should_run a Stage.cropping then do
        let _s1 ← stepsGet Key.stage1_json
        let cropDefs ← time_step o StepId.defineCrops
        if truthy cropDefs then
          fsWriteJson (crop_definitions_path c)
        else
          logE (Event.warned Warn.noCropDefsGenerated)
        runOnlyExit a Stage.cropping
        if truthy cropDefs then do
          let _r ← time_step o StepId.createCrops
          stepsSet Key.crop_image_dir (PyVal.strV (crop_image_dir c))
        else
          logE (Event.warned Warn.skipCreateCropImages)
      else do
        if !(← stepsContains Key.crop_image_dir) then
          stepsSet Key.crop_image_dir (PyVal.strV (crop_image_dir c))
  | Stage.bridge_stage2 => do
      logE (Event.stageEntered Stage.bridge_stage2)
      if should_run a Stage.bridge_stage2 then do
        let _cid ← stepsGet Key.crop_image_dir
        let r ← time_step o StepId.bridge2
        stepsSet Key.stage2_raw_json_temp r
        if (← fsExistsM (expected_stage2_output c)) then do
          fsMove (expected_stage2_output c) (stage2_raw_json c)
          stepsSet Key.stage2_raw_json (PyVal.strV (stage2_raw_json c))
          if !c.keep_intermediate_files then
            fsRmtreeM (stage2_output_dir c)
        else if (← fsExistsM (stage2_raw_json c)) then do
          logE (Event.warned Warn.stage2TargetExists)
          stepsSet Key.stage2_raw_json (PyVal.strV (stage2_raw_json c))
        else
          throwA (Abort.exc Err.stage2OutputNotFound)
        runOnlyExit a Stage.bridge_stage2
      else do
        if !(← stepsContains Key.stage2_raw_json) then
          stepsSet Key.stage2_raw_json (PyVal.strV (stage2_raw_json c))
  | Stage.filter_duplicates => do
      logE (Event.stageEntered Stage.filter_duplicates)
      if should_run a Stage.filter_duplicates then do
        let _raw ← stepsGet Key.stage2_raw_json
        let r ← time_step o StepId.filterDup
        stepsSet Key.stage2_filtered_json r
        runOnlyExit a Stage.filter_duplicates
      else do
        if !(← stepsContains Key.stage2_filtered_json) then
          stepsSet Key.stage2_filtered_json (PyVal.strV (stage2_filtered_json c))
  | Stage.vlm1_recognition => do
      logE (Event.stageEntered Stage.vlm1_recognition)
      if should_run a Stage.vlm1_recognition then do
        let _f ← stepsGet Key.stage2_filtered_json
        let _cid ← stepsGet Key.crop_image_dir
        let r ← time_step o StepId.vlm1Rec
        stepsSet Key.vlm1_raw_json r
        runOnlyExit a Stage.vlm1_recognition
      else do
        if !(← stepsContains Key.vlm1_raw_json) then
          stepsSet Key.vlm1_raw_json (PyVal.strV (vlm1_raw_json c))
  | Stage.vlm2_recognition => do
      logE (Event.stageEntered Stage.vlm2_recognition)
      if should_run a Stage.vlm2_recognition then do
        let _f ← stepsGet Key.stage2_filtered_json
        let _cid ← stepsGet Key.crop_image_dir
        let r ← time_step o StepId.vlm2Rec
        stepsSet Key.vlm2_raw_json r
        runOnlyExit a Stage.vlm2_recognition
      else do
        if !(← stepsContains Key.vlm2_raw_json) then
          stepsSet Key.vlm2_raw_json (PyVal.strV (vlm2_raw_json c))
  | Stage.vlm_filtering => do
      logE (Event.stageEntered Stage.vlm_filtering)
      if should_run a Stage.vlm_filtering then do
        let _v1 ← stepsGet Key.vlm1_raw_json
        let r1 ← time_step o StepId.filterEmpty1
        stepsSet Key.vlm1_filtered_json r1
        let _v2 ← stepsGet Key.vlm2_raw_json
        let r2 ← time_step o StepId.filterEmpty2
        stepsSet Key.vlm2_filtered_json r2
        runOnlyExit a Stage.vlm_filtering
      else do
        if !(← stepsContains Key.vlm1_filtered_json) then do
          stepsSet Key.vlm1_filtered_json (PyVal.strV (vlm1_filtered_json c))
          stepsSet Key.vlm2_filtered_json (PyVal.strV (vlm2_filtered_json c))
  | Stage.vlm_comparison => do
      logE (Event.stageEntered Stage.vlm_comparison)
      if should_run a Stage.vlm_comparison then do
        let _v1 ← stepsGet Key.vlm1_filtered_json
        let _v2 ← stepsGet Key.vlm2_filtered_json
        let r ← time_step o StepId.compareMerge
        stepsSet Key.combined_json r
        runOnlyExit a Stage.vlm_comparison
      else do
        if !(← stepsContains Key.combined_json) then
          stepsSet Key.combined_json (PyVal.strV (combined_json c))
  | Stage.agreement_extraction => do
      logE (Event.stageEntered Stage.agreement_extraction)
      if should_run a Stage.agreement_extraction then do
        let _cj ← stepsGet Key.combined_json
        let r1 ← time_step o StepId.identifyAgreed
        stepsSet Key.agreed_list_txt r1
        let _cj2 ← stepsGet Key.combined_json
        let _al ← stepsGet Key.agreed_list_txt
        let r2 ← time_step o StepId.extractAgreed
        stepsSet Key.agreed_json r2
        runOnlyExit a Stage.agreement_extraction
      else do
        if !(← stepsContains Key.agreed_list_txt) then do
          stepsSet Key.agreed_list_txt (PyVal.strV (agreed_list_txt c))
          stepsSet Key.agreed_json (PyVal.strV (agreed_json c))
  | Stage.blur_assessment => do
      logE (Event.stageEntered Stage.blur_assessment)
      if should_run a Stage.blur_assessment then do
        let _al ← stepsGet Key.agreed_list_txt
        if o.readTextList = PyVal.noneV then
          throwA (Abort.exc Err.readAgreedListFailed)
        let _cid ← stepsGet Key.crop_image_dir
        let r ← time_step o StepId.blurAssess
        stepsSet Key.blur_csv r
        runOnlyExit a Stage.blur_assessment
      else do
        if !(← stepsContains Key.blur_csv) then
          stepsSet Key.blur_csv (PyVal.strV (blur_csv c))
  | Stage.blur_tag_filter => do
      logE (Event.stageEntered Stage.blur_tag_filter)
      if should_run a Stage.blur_tag_filter then do
        let _aj ← stepsGet Key.agreed_json
        let _bc ← stepsGet Key.blur_csv
        let r1 ← time_step o StepId.tagBlur
        stepsSet Key.tagged_json_intermediate r1
        let _tj ← stepsGet Key.tagged_json_intermediate
        let r2 ← time_step o StepId.filterBlur
        stepsSet Key.restoration_json_intermediate r2
        runOnlyExit a Stage.blur_tag_filter
      else do
        if !(← stepsContains Key.tagged_json_intermediate) then do
          stepsSet Key.tagged_json_intermediate (PyVal.strV (tagged_json_intermediate c))
          stepsSet Key.restoration_json_intermediate (PyVal.strV (restoration_json_intermediate c))
  | Stage.final_formatting => do
      logE (Event.stageEntered Stage.final_formatting)
      if should_run a Stage.final_formatting then do
        let _tj ← stepsGet Key.tagged_json_intermediate
        let r1 ← time_step o StepId.formatFull
        stepsSet Key.full_dataset_final_json r1
        let _rj ← stepsGet Key.restoration_json_intermediate
        let r2 ← time_step o StepId.formatRestoration
        stepsSet Key.restoration_dataset_final_json r2
        runOnlyExit a Stage.final_formatting
      else
        pure ()

/-- The fixed `valid_stages` order the traversal follows. -/
def stageOrder : List Stage :=
  [Stage.start, Stage.cropping, Stage.bridge_stage2, Stage.filter_duplicates,
   Stage.vlm1_recognition, Stage.vlm2_recognition, Stage.vlm_filtering,
   Stage.vlm_comparison, Stage.agreement_extraction, Stage.blur_assessment,
   Stage.blur_tag_filter, Stage.final_formatting]

/-- Run the remaining stage blocks in order, then the success log of
source lines 443-447. -/
def runFrom (c : Cfg) (a : ArgsV) (o : Oracle) : List Stage → M Unit
  | [] => logE Event.completedOk
  | s :: rest => do
      runStage c a o s
      runFrom c a o rest

/-- The stage traversal proper (source lines 196-447): the twelve stage
blocks in their fixed order, then the success log. -/
def stagesSeq (c : Cfg) (a : ArgsV) (o : Oracle) : M Unit := runFrom c a o stageOrder

/-- The body of the `try` block (source lines 192-447): validate the
resume point when not starting from the first stage, then traverse. -/
def tryBlock (c : Cfg) (a : ArgsV) (o : Oracle) : M Unit := do
  if a.start_from ≠ Stage.start then
    check_required_inputs c a.start_from
  stagesSeq c a o

/-- `utils.ensure_dir`: create the directory (empty) when nothing exists
at the path. -/
def ensureDir (fs : FS) (p : FPath) : FS :=
  if (FS.find fs p).isSome then fs else FS.set fs p (Entry.dirE 0)

/-- The four `ensure_dir` calls of source lines 100-101. -/
def ensureDirs (c : Cfg) (fs : FS) : FS :=
  ensureDir (ensureDir (ensureDir (ensureDir fs (intermediate_base c))
    (intermediate_dir c)) (crop_image_dir c)) (final_dataset_output_dir c)

/-- The state at the head of the traversal: directories ensured, no
events, empty `pipeline_steps`. -/
def St0 (c : Cfg) (fs0 : FS) : St :=
  { fs := ensureDirs c fs0, events := [], steps := [] }

/-- The startup ordering check of `--run_only_stage` (source lines
123-133): rejected iff a run-only stage is given whose index is strictly
below the start index. -/
def runOnlyRejected (a : ArgsV) : Bool :=
  match a.run_only_stage with
  | some r => r.idx < a.start_from.idx
  | none => false

/-- The `finally` block (source lines 452-474): always entered; when the
run is configured to discard intermediates it deletes the enumerated
files and the two raw output directories. -/
def cleanupFinally (c : Cfg) : M Unit := do
  logE Event.finallyEntered
  if c.keep_intermediate_files then
    pure ()
  else do
    logE Event.cleaningUp
    (fun st => (Except.ok (), { st with fs := cleanupFs c st.fs }) : M Unit)

/-- The observable outcome of one `main` invocation: the process exit
status, the exception caught at the failure boundary (if any), the event
log, the final filesystem, and whether the `finally` block ran. -/
structure RunOutcome where
  exitCode : Nat
  caught : Option Err
  events : List Event
  fsAfter : FS
  finallyRan : Bool
deriving DecidableEq

/-- The modelled region of `main`: the run-only ordering check (which on
violation exits before the `try`/`finally` is entered), then the `try`
block, the `except Exception` clause (which logs and swallows exceptions
but not `SystemExit`), and the `finally` cleanup; a caught exception
leaves `main` returning normally, so the process exits 0. -/
def runMain (c : Cfg) (a : ArgsV) (o : Oracle) (fs0 : FS) : RunOutcome :=
  let st0 := St0 c fs0
  if runOnlyRejected a then
    { exitCode := 1, caught := none, events := st0.events ++ [Event.cliOrderingError],
      fsAfter := st0.fs, finallyRan := false }
  else
    let p := tryBlock c a o st0
    let st1 :=
      match p.1 with
      | Except.error (Abort.exc e) => { p.2 with events := p.2.events ++ [Event.errorCaught e] }
      | _ => p.2
    let st2 := (cleanupFinally c st1).2
    match p.1 with
    | Except.ok _ =>
        { exitCode := 0, caught := none, events := st2.events, fsAfter := st2.fs, finallyRan := true }
    | Except.error (Abort.sysExit n) =>
        { exitCode := n, caught := none, events := st2.events, fsAfter := st2.fs, finallyRan := true }
    | Except.error (Abort.exc e) =>
        { exitCode := 0, caught := some e, events := st2.events, fsAfter := st2.fs, finallyRan := true }

/-- The collaborator invocations recorded in an event log, in order. -/
def invokedOf (evs : List Event) : List StepId :=
  evs.filterMap (fun e => match e with
    | Event.invoked sid => some sid
    | _ => none)

/-- The missing-input paths logged by the precondition validator. -/
def missingLogged (evs : List Event) : List FPath :=
  evs.filterMap (fun e => match e with
    | Event.missingInput p => some p
    | _ => none)

/-- Stepping lemma: a successful action feeds its value and state to the
continuation. -/
theorem M.bind_step_ok {α β : Type} (x : M α) (f : α → M β) (st st1 : St) (a : α)
    (h : x st = (Except.ok a, st1)) : (x >>= f) st = f a st1 := by
  rw [M.bind_apply, h]

/-- Stepping lemma: an aborting action short-circuits the continuation. -/
theorem M.bind_step_err {α β : Type} (x : M α) (f : α → M β) (st st1 : St) (e : Abort)
    (h : x st = (Except.error e, st1)) : (x >>= f) st = (Except.error e, st1) := by
  rw [M.bind_apply, h]

/-- Stepping lemma for the stage list: a completed stage block hands its
state to the remaining stages. -/
theorem runFrom_step_ok (c : Cfg) (a : ArgsV) (o : Oracle) (s : Stage)
    (rest : List Stage) (st st1 : St)
    (h : runStage c a o s st = (Except.ok (), st1)) :
    runFrom c a o (s :: rest) st = runFrom c a o rest st1 := by
  have he : runFrom c a o (s :: rest) st =
      (runStage c a o s >>= fun _ => runFrom c a o rest) st := rfl
  rw [he]
  exact M.bind_step_ok _ _ _ _ _ h

/-- Stepping lemma for the stage list: an aborting stage block ends the
traversal. -/
theorem runFrom_step_err (c : Cfg) (a : ArgsV) (o : Oracle) (s : Stage)
    (rest : List Stage) (st st1 : St) (e : Abort)
    (h : runStage c a o s st = (Except.error e, st1)) :
    runFrom c a o (s :: rest) st = (Except.error e, st1) := by
  have he : runFrom c a o (s :: rest) st =
      (runStage c a o s >>= fun _ => runFrom c a o rest) st := rfl
  rw [he]
  exact M.bind_step_err _ _ _ _ _ h

/-- A stage whose admission check fails runs no collaborator, leaves the
filesystem untouched (in particular it performs no existence check), and
only binds the stage's default output paths into `pipeline_steps`. -/
theorem runStage_skipped (c : Cfg) (a : ArgsV) (o : Oracle) (s : Stage) (st : St)
    (h : should_run a s = false) :
    runStage c a o s st =
      (Except.ok (), { st with events := st.events ++ [Event.stageEntered s],
                               steps := adoptDefaults c s st.steps }) := by
  cases s <;>
    simp only [runStage, adoptDefaults, M.bind_apply, M.pure_apply, M.ite_app, logE,
      stepsContains, stepsSet, h] <;>
    first
      | rfl
      | (split_ifs <;> simp_all)

/-- The accumulating check loop logs exactly the failing checks and
returns the conjunction of all checks. -/
theorem checksLoop_spec (rs : List Req) (st : St) :
    checksLoop rs st =
      (Except.ok (rs.all (fun r => reqSatisfied st.fs r)),
       { st with events := st.events ++
          (rs.filter (fun r => !reqSatisfied st.fs r)).map (fun r => Event.missingInput r.path) }) := by
  induction rs generalizing st with
  | nil => simp [checksLoop, M.pure_apply]
  | cons r rs ih =>
    by_cases hr : reqSatisfied st.fs r = true
    · simp [checksLoop, M.bind_apply, M.ite_app, hr, ih]
    · simp [checksLoop, M.bind_apply, M.ite_app, hr, ih, logE, M.pure_apply, List.append_assoc]

/-- When every required input of the start stage is present the validator
returns normally, logging only its banner. -/
theorem check_inputs_ok (c : Cfg) (s : Stage) (st : St)
    (h : (requiredInputs c s).all (fun r => reqSatisfied st.fs r) = true) :
    check_required_inputs c s st =
      (Except.ok (), { st with events := st.events ++ [Event.checkingInputs s] }) := by
  have hfil : (requiredInputs c s).filter (fun r => !reqSatisfied st.fs r) = [] := by
    rw [List.filter_eq_nil_iff]
    intro r hr
    have hx := List.all_eq_true.mp h r hr
    simp [hx]
  simp [check_required_inputs, M.bind_apply, logE, checksLoop_spec, h, hfil,
    M.ite_app, M.pure_apply, throwA]

/-- When some required input of the start stage is missing the validator
logs every missing input and exits with status 1. -/
theorem check_inputs_fail (c : Cfg) (s : Stage) (st : St)
    (h : (requiredInputs c s).all (fun r => reqSatisfied st.fs r) = false) :
    check_required_inputs c s st =
      (Except.error (Abort.sysExit 1),
       { st with events := st.events ++ (Event.checkingInputs s ::
          ((requiredInputs c s).filter (fun r => !reqSatisfied st.fs r)).map
            (fun r => Event.missingInput r.path)) }) := by
  simp [check_required_inputs, M.bind_apply, logE, checksLoop_spec, h,
    M.ite_app, M.pure_apply, throwA, List.append_assoc]

/-- Evaluation of `time_step` on a collaborator whose result is not
`None`: the result is returned unchanged, after the collaborator's
writes. -/
theorem time_step_ok (o : Oracle) (sid : StepId) (st : St)
    (h : o.ret sid ≠ PyVal.noneV) :
    time_step o sid st =
      (Except.ok (o.ret sid),
       { st with fs := applyWritesFs (o.writes sid) st.fs,
                 events := st.events ++ [Event.invoked sid] }) := by
  simp [time_step, M.bind_apply, logE, applyWrites, M.ite_app, M.pure_apply, h]

/-- Evaluation of `time_step` on a collaborator whose result is `None`:
the step raises, with the collaborator's writes already on disk. -/
theorem time_step_fail (o : Oracle) (sid : StepId) (st : St)
    (h : o.ret sid = PyVal.noneV) :
    time_step o sid st =
      (Except.error (Abort.exc (Err.stepFailed sid)),
       { st with fs := applyWritesFs (o.writes sid) st.fs,
                 events := st.events ++ [Event.invoked sid, Event.stepFailedLog sid] }) := by
  simp [time_step, M.bind_apply, logE, applyWrites, M.ite_app, M.pure_apply, throwA, h]

/-- Evaluation of the model-1 recognition block when it is the requested
run-only stage and its collaborator succeeds. -/
theorem runStage_vlm1_runonly (c : Cfg) (a : ArgsV) (o : Oracle) (st : St) (v1 v2 : PyVal)
    (hsr : should_run a Stage.vlm1_recognition = true)
    (hro : a.run_only_stage = some Stage.vlm1_recognition)
    (h1 : Steps.find st.steps Key.stage2_filtered_json = some v1)
    (h2 : Steps.find st.steps Key.crop_image_dir = some v2)
    (hret : o.ret StepId.vlm1Rec ≠ PyVal.noneV) :
    runStage c a o Stage.vlm1_recognition st =
      (Except.error (Abort.sysExit 0),
       { fs := applyWritesFs (o.writes StepId.vlm1Rec) st.fs,
         events := st.events ++ [Event.stageEntered Stage.vlm1_recognition,
           Event.invoked StepId.vlm1Rec, Event.exitByRequest Stage.vlm1_recognition],
         steps := (Key.vlm1_raw_json, o.ret StepId.vlm1Rec) :: st.steps }) := by
  simp [runStage, M.bind_apply, M.pure_apply, M.ite_app, logE, stepsGet, stepsSet,
    runOnlyExit, throwA, applyWrites, time_step, hsr, hro, h1, h2, hret]

/-- Evaluation of the cropping block when it is the requested run-only
stage and the crop-definition collaborator returns a non-`None` value:
the block exits by request after the first sub-step, never reaching the
crop-image materializer. -/
theorem runStage_cropping_runonly (c : Cfg) (a : ArgsV) (o : Oracle) (st : St) (v : PyVal)
    (hsr : should_run a Stage.cropping = true)
    (hro : a.run_only_stage = some Stage.cropping)
    (h1 : Steps.find st.steps Key.stage1_json = some v)
    (hret : o.ret StepId.defineCrops ≠ PyVal.noneV) :
    runStage c a o Stage.cropping st =
      (Except.error (Abort.sysExit 0),
       { fs := if truthy (o.ret StepId.defineCrops) then
            FS.set (applyWritesFs (o.writes StepId.defineCrops) st.fs) (crop_definitions_path c) Entry.fileE
          else applyWritesFs (o.writes StepId.defineCrops) st.fs,
         events := (st.events ++ [Event.stageEntered Stage.cropping, Event.invoked StepId.defineCrops]) ++
           ((if truthy (o.ret StepId.defineCrops) then [] else [Event.warned Warn.noCropDefsGenerated]) ++
             [Event.exitByRequest Stage.cropping]),
         steps := st.steps }) := by
  by_cases ht : truthy (o.ret StepId.defineCrops) = true
  · simp [runStage, M.bind_apply, M.pure_apply, M.ite_app, logE, stepsGet, stepsSet,
      runOnlyExit, throwA, applyWrites, fsWriteJson, time_step, hsr, hro, h1, hret, ht]
  · simp [runStage, M.bind_apply, M.pure_apply, M.ite_app, logE, stepsGet, stepsSet,
      runOnlyExit, throwA, applyWrites, fsWriteJson, time_step, hsr, hro, h1, hret, ht,
      List.append_assoc]

/-- Evaluation of the cropping block when the crop-definition collaborator
returns an empty (non-`None`) collection and the run is not in run-only
mode for cropping: both warnings are logged, the materializer is not
invoked, and the block returns normally. -/
theorem runStage_cropping_empty (c : Cfg) (a : ArgsV) (o : Oracle) (st : St) (v : PyVal)
    (hsr : should_run a Stage.cropping = true)
    (hro : a.run_only_stage ≠ some Stage.cropping)
    (h1 : Steps.find st.steps Key.stage1_json = some v)
    (hret : o.ret StepId.defineCrops ≠ PyVal.noneV)
    (htr : truthy (o.ret StepId.defineCrops) = false) :
    runStage c a o Stage.cropping st =
      (Except.ok (),
       { fs := applyWritesFs (o.writes StepId.defineCrops) st.fs,
         events := st.events ++ [Event.stageEntered Stage.cropping, Event.invoked StepId.defineCrops,
           Event.warned Warn.noCropDefsGenerated, Event.warned Warn.skipCreateCropImages],
         steps := st.steps }) := by
  simp [runStage, M.bind_apply, M.pure_apply, M.ite_app, logE, stepsGet, stepsSet,
    runOnlyExit, throwA, applyWrites, fsWriteJson, time_step, hsr, hro, h1, hret, htr]

/-- Evaluation of the second-pass detection block when `pipeline_steps`
has no `crop_image_dir` binding: evaluating the collaborator's arguments
raises `KeyError` before the collaborator is invoked. -/
theorem runStage_bridge2_keyerror (c : Cfg) (a : ArgsV) (o : Oracle) (st : St)
    (hsr : should_run a Stage.bridge_stage2 = true)
    (hmiss : Steps.find st.steps Key.crop_image_dir = none) :
    runStage c a o Stage.bridge_stage2 st =
      (Except.error (Abort.exc (Err.keyErr Key.crop_image_dir)),
       { st with events := st.events ++ [Event.stageEntered Stage.bridge_stage2] }) := by
  simp [runStage, M.bind_apply, M.pure_apply, M.ite_app, logE, stepsGet, hsr, hmiss]

/-- A small concrete configuration for concrete evaluations. -/
def cW : Cfg :=
  { sa1b_base_dir := ['s'], sa1b_subfolder := ['f'],
    intermediate_output_base_dir := ['d'], final_dataset_dir := ['o'],
    vlm1_name := ['v'], vlm2_name := ['w'], output_suffix := [],
    keep_intermediate_files := true }

/-- An oracle whose collaborators all succeed with a non-empty result and
write nothing. -/
def oW : Oracle :=
  { ret := fun _ => PyVal.listV 1, writes := fun _ => [], readTextList := PyVal.listV 1 }

/-- An oracle whose crop-definition collaborator returns the empty list
and whose other collaborators succeed. -/
def oEmptyDefs : Oracle :=
  { ret := fun sid => if sid = StepId.defineCrops then PyVal.listV 0 else PyVal.listV 1,
    writes := fun _ => [], readTextList := PyVal.listV 1 }

/-- An oracle whose collaborators all return `None`. -/
def oNoneRet : Oracle :=
  { ret := fun _ => PyVal.noneV, writes := fun _ => [], readTextList := PyVal.noneV }

/-- A filesystem holding only the stage-1 results file. -/
def fsStage1 : FS := [(stage1_json cW, Entry.fileE)]

/-- A filesystem where the stage-1 results path exists but as a directory. -/
def fsDirAtStage1 : FS := [(stage1_json cW, Entry.dirE 3)]

/-- An empty starting state. -/
def stW : St := { fs := [], events := [], steps := [] }

/-- Claim C1 as the spec states it: every falsy (empty/false) collaborator
result makes the Stage Executor abort. -/
def falsyMeansFailure : Prop :=
  ∀ (o : Oracle) (sid : StepId) (st : St),
    truthy (o.ret sid) = false →
    ∃ ab, (time_step o sid st).1 = Except.error ab

/-- Claim C1 counterexample: a collaborator returning the empty list —
falsy but not `None` — is not treated as a failure by `time_step`, which
returns the empty collection as the stage result. -/
theorem c1_falsy_not_failure_cex : ¬ falsyMeansFailure := by
  intro h
  obtain ⟨ab, hab⟩ :=
    h { ret := fun _ => PyVal.listV 0, writes := fun _ => [], readTextList := PyVal.listV 0 }
      StepId.filterDup stW rfl
  have hok : (time_step
      { ret := fun _ => PyVal.listV 0, writes := fun _ => [], readTextList := PyVal.listV 0 }
      StepId.filterDup stW).1 = Except.ok (PyVal.listV 0) := rfl
  rw [hok] at hab
  cases hab

/-- Claim C1 (amended): the Stage Executor aborts the step if and only if
the collaborator's return value is `None` — other falsy values (empty
collections, `False`, empty strings) are returned as the stage result —
and in every case the collaborator's file writes are already on disk. -/
theorem c1_time_step_none_only (o : Oracle) (sid : StepId) (st : St) :
    (time_step o sid st).1 =
      (if o.ret sid = PyVal.noneV then Except.error (Abort.exc (Err.stepFailed sid))
       else Except.ok (o.ret sid)) ∧
    (time_step o sid st).2.fs = applyWritesFs (o.writes sid) st.fs := by
  by_cases h : o.ret sid = PyVal.noneV
  · rw [time_step_fail o sid st h]
    simp [h]
  · rw [time_step_ok o sid st h]
    simp [h]

/-- Claim C4: a run-only stage whose ordinal is strictly below the
start-from ordinal makes the run exit with status 1 at startup, before
any stage block is entered or any collaborator invoked. -/
theorem c4_run_only_before_start_rejected (c : Cfg) (a : ArgsV) (o : Oracle) (fs0 : FS)
    (h : runOnlyRejected a = true) :
    (runMain c a o fs0).exitCode = 1 ∧
    invokedOf (runMain c a o fs0).events = [] ∧
    (∀ s : Stage, Event.stageEntered s ∉ (runMain c a o fs0).events) := by
  simp [runMain, h, St0, invokedOf]

/-- The CLI arguments of the spec's Scenario D: run-only filter_duplicates
with start-from vlm1_recognition. -/
def aScenD : ArgsV :=
  { start_from := Stage.vlm1_recognition, run_only_stage := some Stage.filter_duplicates }

/-- Witness for C4 at the spec's Scenario D. -/
theorem c4_witness :
    runOnlyRejected aScenD = true ∧
    (runMain cW aScenD oW []).exitCode = 1 ∧
    invokedOf (runMain cW aScenD oW []).events = [] := by
  refine ⟨rfl, ?_, ?_⟩
  · exact (c4_run_only_before_start_rejected cW aScenD oW [] rfl).1
  · exact (c4_run_only_before_start_rejected cW aScenD oW [] rfl).2.1

/-- Claim C9: a stage whose ordinal is strictly below the start-from
ordinal binds its deterministic default output path(s) into
PipelineState without any filesystem access: the block returns normally,
the filesystem passes through unchanged, no collaborator runs, and the
new bindings are the fixed `adoptDefaults` function of the existing
bindings only — the same for every filesystem content. -/
theorem c9_skipped_stage_adopts_without_check (c : Cfg) (a : ArgsV) (o : Oracle)
    (s : Stage) (st : St) (h : s.idx < a.start_from.idx) :
    runStage c a o s st =
      (Except.ok (), { st with events := st.events ++ [Event.stageEntered s],
                               steps := adoptDefaults c s st.steps }) := by
  apply runStage_skipped
  have hn : ¬ (a.start_from.idx ≤ s.idx) := Nat.not_le.mpr h
  simp [should_run, hn]

/-- Witness for C9: the first stage is skip-adopted when resuming from
cropping. -/
def aFromCropping : ArgsV := { start_from := Stage.cropping, run_only_stage := none }

/-- Witness for C9: the first stage is skip-adopted when resuming from
cropping. -/
theorem c9_witness :
    Stage.start.idx < Stage.cropping.idx ∧
    runStage cW aFromCropping oW Stage.start stW =
      (Except.ok (), { stW with events := stW.events ++ [Event.stageEntered Stage.start],
                                steps := adoptDefaults cW Stage.start stW.steps }) :=
  ⟨by decide,
   c9_skipped_stage_adopts_without_check cW aFromCropping oW Stage.start stW (by decide)⟩

/-- Claim C6: once the startup ordering check passes, the `finally`
cleanup phase runs on every outcome; an exception raised inside the
`try` block is caught at the single top-level boundary, logged, and the
process ends with exit status 0 (the failure is never re-raised to the
exit code), and the cleanup deletions (when enabled) are applied to the
state at the moment the `try` block ended. -/
theorem c6_failure_boundary (c : Cfg) (a : ArgsV) (o : Oracle) (fs0 : FS)
    (h : runOnlyRejected a = false) :
    (runMain c a o fs0).finallyRan = true ∧
    Event.finallyEntered ∈ (runMain c a o fs0).events ∧
    (∀ e : Err, (tryBlock c a o (St0 c fs0)).1 = Except.error (Abort.exc e) →
      (runMain c a o fs0).exitCode = 0 ∧
      (runMain c a o fs0).caught = some e ∧
      Event.errorCaught e ∈ (runMain c a o fs0).events) ∧
    (c.keep_intermediate_files = false →
      (runMain c a o fs0).fsAfter = cleanupFs c (tryBlock c a o (St0 c fs0)).2.fs) ∧
    (c.keep_intermediate_files = true →
      (runMain c a o fs0).fsAfter = (tryBlock c a o (St0 c fs0)).2.fs) := by
  rcases hres : tryBlock c a o (St0 c fs0) with ⟨res, st1⟩
  rcases res with ab | u
  · rcases ab with n | e <;> by_cases hk : c.keep_intermediate_files <;>
      simp [runMain, h, hres, cleanupFinally, logE, M.bind_apply, M.ite_app, M.pure_apply, hk]
  · by_cases hk : c.keep_intermediate_files <;>
      simp [runMain, h, hres, cleanupFinally, logE, M.bind_apply, M.ite_app, M.pure_apply, hk]

/-- The CLI arguments of a plain full run. -/
def aFull : ArgsV := { start_from := Stage.start, run_only_stage := none }

/-- Witness for C6: a first-stage collaborator returning `None` raises, is
caught, cleanup runs, and the process exit status is 0. -/
theorem c6_witness :
    runOnlyRejected aFull = false ∧
    (tryBlock cW aFull oNoneRet (St0 cW [])).1 =
      Except.error (Abort.exc (Err.stepFailed StepId.bridge1)) ∧
    (runMain cW aFull oNoneRet []).exitCode = 0 ∧
    (runMain cW aFull oNoneRet []).caught = some (Err.stepFailed StepId.bridge1) ∧
    Event.finallyEntered ∈ (runMain cW aFull oNoneRet []).events := by
  have h := c6_failure_boundary cW aFull oNoneRet [] rfl
  have he : (tryBlock cW aFull oNoneRet (St0 cW [])).1 =
      Except.error (Abort.exc (Err.stepFailed StepId.bridge1)) := rfl
  have h3 := h.2.2.1 (Err.stepFailed StepId.bridge1) he
  exact ⟨rfl, he, h3.1, h3.2.1, h.2.1⟩

/-- Claim C10: in each detection stage (start and bridge_stage2), when the
collaborator returns non-`None` but its expected `text_detection_results.json`
is absent, a pre-existing file at the target result path is adopted with a
warning and the block does not fail; the `RuntimeError` is raised only
when the target path does not exist either. -/
theorem c10_detection_adopt_or_fail (c : Cfg) (a : ArgsV) (o : Oracle) (st : St) :
    (should_run a Stage.start = true →
     o.ret StepId.bridge1 ≠ PyVal.noneV →
     FS.find (applyWritesFs (o.writes StepId.bridge1) st.fs) (expected_stage1_output c) = none →
       ((∀ ent : Entry,
          FS.find (applyWritesFs (o.writes StepId.bridge1) st.fs) (stage1_json c) = some ent →
          runStage c a o Stage.start st =
            ((if a.run_only_stage = some Stage.start then Except.error (Abort.sysExit 0)
              else Except.ok ()),
             { fs := applyWritesFs (o.writes StepId.bridge1) st.fs,
               events := (st.events ++ [Event.stageEntered Stage.start,
                 Event.invoked StepId.bridge1, Event.warned Warn.stage1TargetExists]) ++
                 (if a.run_only_stage = some Stage.start then [Event.exitByRequest Stage.start]
                  else []),
               steps := (Key.stage1_json, PyVal.strV (stage1_json c)) ::
                 (Key.stage1_json_temp, o.ret StepId.bridge1) :: st.steps })) ∧
        (FS.find (applyWritesFs (o.writes StepId.bridge1) st.fs) (stage1_json c) = none →
          runStage c a o Stage.start st =
            (Except.error (Abort.exc Err.stage1OutputNotFound),
             { fs := applyWritesFs (o.writes StepId.bridge1) st.fs,
               events := st.events ++ [Event.stageEntered Stage.start, Event.invoked StepId.bridge1],
               steps := (Key.stage1_json_temp, o.ret StepId.bridge1) :: st.steps })))) ∧
    (should_run a Stage.bridge_stage2 = true →
     (∀ v : PyVal, Steps.find st.steps Key.crop_image_dir = some v →
      o.ret StepId.bridge2 ≠ PyVal.noneV →
      FS.find (applyWritesFs (o.writes StepId.bridge2) st.fs) (expected_stage2_output c) = none →
       ((∀ ent : Entry,
          FS.find (applyWritesFs (o.writes StepId.bridge2) st.fs) (stage2_raw_json c) = some ent →
          runStage c a o Stage.bridge_stage2 st =
            ((if a.run_only_stage = some Stage.bridge_stage2 then Except.error (Abort.sysExit 0)
              else Except.ok ()),
             { fs := applyWritesFs (o.writes StepId.bridge2) st.fs,
               events := (st.events ++ [Event.stageEntered Stage.bridge_stage2,
                 Event.invoked StepId.bridge2, Event.warned Warn.stage2TargetExists]) ++
                 (if a.run_only_stage = some Stage.bridge_stage2 then
                    [Event.exitByRequest Stage.bridge_stage2]
                  else []),
               steps := (Key.stage2_raw_json, PyVal.strV (stage2_raw_json c)) ::
                 (Key.stage2_raw_json_temp, o.ret StepId.bridge2) :: st.steps })) ∧
        (FS.find (applyWritesFs (o.writes StepId.bridge2) st.fs) (stage2_raw_json c) = none →
          runStage c a o Stage.bridge_stage2 st =
            (Except.error (Abort.exc Err.stage2OutputNotFound),
             { fs := applyWritesFs (o.writes StepId.bridge2) st.fs,
               events := st.events ++ [Event.stageEntered Stage.bridge_stage2,
                 Event.invoked StepId.bridge2],
               steps := (Key.stage2_raw_json_temp, o.ret StepId.bridge2) :: st.steps }))))) := by
  constructor
  · intro h0 h1 h2
    constructor
    · intro ent h3
      by_cases hro : a.run_only_stage = some Stage.start <;>
        simp [runStage, M.bind_apply, M.pure_apply, M.ite_app, logE, stepsSet, fsExistsM,
          fsHas, fsMove, fsRmtreeM, runOnlyExit, throwA, applyWrites, time_step,
          h0, h1, h2, h3, hro, List.append_assoc]
    · intro h3
      simp [runStage, M.bind_apply, M.pure_apply, M.ite_app, logE, stepsSet, fsExistsM,
        fsHas, fsMove, fsRmtreeM, runOnlyExit, throwA, applyWrites, time_step,
        h0, h1, h2, h3]
  · intro h0 v hv h1 h2
    constructor
    · intro ent h3
      by_cases hro : a.run_only_stage = some Stage.bridge_stage2 <;>
        simp [runStage, M.bind_apply, M.pure_apply, M.ite_app, logE, stepsGet, stepsSet,
          fsExistsM, fsHas, fsMove, fsRmtreeM, runOnlyExit, throwA, applyWrites, time_step,
          h0, hv, h1, h2, h3, hro, List.append_assoc]
    · intro h3
      simp [runStage, M.bind_apply, M.pure_apply, M.ite_app, logE, stepsGet, stepsSet,
        fsExistsM, fsHas, fsMove, fsRmtreeM, runOnlyExit, throwA, applyWrites, time_step,
        h0, hv, h1, h2, h3]

/-- A starting state holding only the stage-1 results file. -/
def stS : St := { fs := fsStage1, events := [], steps := [] }

/-- Witness for C10: with the expected stage-1 output absent and a
pre-existing target file, the start block adopts the target with a
warning and succeeds. -/
theorem c10_witness :
    FS.find (applyWritesFs (oW.writes StepId.bridge1) stS.fs) (expected_stage1_output cW) = none ∧
    FS.find (applyWritesFs (oW.writes StepId.bridge1) stS.fs) (stage1_json cW) = some Entry.fileE ∧
    runStage cW aFull oW Stage.start stS =
      ((if aFull.run_only_stage = some Stage.start then Except.error (Abort.sysExit 0)
        else Except.ok ()),
       { fs := applyWritesFs (oW.writes StepId.bridge1) stS.fs,
         events := (stS.events ++ [Event.stageEntered Stage.start, Event.invoked StepId.bridge1,
           Event.warned Warn.stage1TargetExists]) ++
           (if aFull.run_only_stage = some Stage.start then [Event.exitByRequest Stage.start]
            else []),
         steps := (Key.stage1_json, PyVal.strV (stage1_json cW)) ::
           (Key.stage1_json_temp, oW.ret StepId.bridge1) :: stS.steps }) := by
  refine ⟨by decide, by decide, ?_⟩
  exact ((c10_detection_adopt_or_fail cW aFull oW stS).1 rfl (by decide) (by decide)).1
    Entry.fileE (by decide)

/-- The CLI arguments used by several cropping scenarios: start at
cropping, run only cropping. -/
def aOnlyCropping : ArgsV :=
  { start_from := Stage.cropping, run_only_stage := some Stage.cropping }

/-- Claim C5 counterexample: resuming from cropping while the stage-1
results path exists as a DIRECTORY: the claim says a file key must exist
as a file and the run must otherwise fail before any stage, but the
validator only calls `os.path.exists`, so the run proceeds and a
collaborator is invoked, ending successfully. -/
theorem c5_file_key_dir_cex :
    FS.find fsDirAtStage1 (stage1_json cW) = some (Entry.dirE 3) ∧
    invokedOf (runMain cW aOnlyCropping oW fsDirAtStage1).events = [StepId.defineCrops] ∧
    (runMain cW aOnlyCropping oW fsDirAtStage1).exitCode = 0 := by
  refine ⟨by decide, by decide, by decide⟩

/-- Mapping then keeping everything is a map. -/
theorem filterMap_some_fn {α β : Type} (f : α → β) (l : List α) :
    List.filterMap (fun x => some (f x)) l = List.map f l := by
  induction l with
  | nil => rfl
  | cons x xs ih => simp [List.filterMap_cons, ih]

/-- The invocation log of an empty event list. -/
theorem invokedOf_nil : invokedOf [] = [] := rfl

/-- The missing-input log of an empty event list. -/
theorem missingLogged_nil : missingLogged [] = [] := rfl

/-- The invocation log distributes over list append. -/
theorem invokedOf_append (l1 l2 : List Event) :
    invokedOf (l1 ++ l2) = invokedOf l1 ++ invokedOf l2 := by
  simp [invokedOf]

/-- The missing-input log distributes over list append. -/
theorem missingLogged_append (l1 l2 : List Event) :
    missingLogged (l1 ++ l2) = missingLogged l1 ++ missingLogged l2 := by
  simp [missingLogged]

/-- Missing-input events record no collaborator invocations. -/
theorem invokedOf_missing_map (l : List Req) :
    invokedOf (List.map (fun r => Event.missingInput r.path) l) = [] := by
  induction l with
  | nil => rfl
  | cons x xs ih =>
    simp only [invokedOf, List.map_cons, List.filterMap_cons] at *
    simp [ih]

/-- The missing-input log of a block of missing-input events is exactly
their paths. -/
theorem missingLogged_missing_map (l : List Req) :
    missingLogged (List.map (fun r => Event.missingInput r.path) l) = List.map Req.path l := by
  induction l with
  | nil => rfl
  | cons x xs ih =>
    simp only [missingLogged, List.map_cons, List.filterMap_cons] at *
    simpa using ih

/-- Missing-input events are not stage entries. -/
theorem stageEntered_not_mem_missing_map (s : Stage) (l : List Req) :
    Event.stageEntered s ∉ List.map (fun r => Event.missingInput r.path) l := by
  simp [List.mem_map]

/-- A validator banner records no collaborator invocation. -/
theorem invokedOf_cons_checking (s : Stage) (l : List Event) :
    invokedOf (Event.checkingInputs s :: l) = invokedOf l := by
  simp [invokedOf]

/-- A validator banner records no missing input. -/
theorem missingLogged_cons_checking (s : Stage) (l : List Event) :
    missingLogged (Event.checkingInputs s :: l) = missingLogged l := by
  simp [missingLogged]

/-- The finally banner records no collaborator invocation. -/
theorem invokedOf_fin : invokedOf [Event.finallyEntered] = [] := rfl

/-- The cleanup banners record no collaborator invocation. -/
theorem invokedOf_fin_clean : invokedOf [Event.finallyEntered, Event.cleaningUp] = [] := rfl

/-- The finally banner records no missing input. -/
theorem missingLogged_fin : missingLogged [Event.finallyEntered] = [] := rfl

/-- The cleanup banners record no missing input. -/
theorem missingLogged_fin_clean :
    missingLogged [Event.finallyEntered, Event.cleaningUp] = [] := rfl

/-- Claim C5 (amended): when resuming from a stage other than the first,
the validator checks every declared required artifact (file keys must
exist as some filesystem entry — the code checks bare existence, not
file-ness — and directory keys must exist as non-empty directories),
accumulates and logs all missing ones, and if any is missing the run
exits with status 1 with no stage entered and no collaborator invoked;
when start-from is the first stage the validator is not invoked at all
and the `try` block is exactly the stage traversal. -/
theorem c5_validator_accumulates (c : Cfg) (a : ArgsV) (o : Oracle) (fs0 : FS)
    (h : runOnlyRejected a = false) :
    (a.start_from = Stage.start → tryBlock c a o = stagesSeq c a o) ∧
    (a.start_from ≠ Stage.start →
      (requiredInputs c a.start_from).all
          (fun r => reqSatisfied (ensureDirs c fs0) r) = false →
        (runMain c a o fs0).exitCode = 1 ∧
        invokedOf (runMain c a o fs0).events = [] ∧
        (∀ s : Stage, Event.stageEntered s ∉ (runMain c a o fs0).events) ∧
        missingLogged (runMain c a o fs0).events =
          ((requiredInputs c a.start_from).filter
            (fun r => !reqSatisfied (ensureDirs c fs0) r)).map Req.path) := by
  constructor
  · intro hstart
    funext st
    show (tryBlock c a o) st = (stagesSeq c a o) st
    unfold tryBlock
    simp [hstart, M.bind_apply, M.pure_apply, M.ite_app]
  · intro hne hall
    have hval := check_inputs_fail c a.start_from (St0 c fs0) hall
    have htb : tryBlock c a o (St0 c fs0) =
        (Except.error (Abort.sysExit 1),
         { St0 c fs0 with events := (St0 c fs0).events ++ (Event.checkingInputs a.start_from ::
            ((requiredInputs c a.start_from).filter
              (fun r => !reqSatisfied (ensureDirs c fs0) r)).map
              (fun r => Event.missingInput r.path)) }) := by
      unfold tryBlock
      rw [if_pos hne]
      exact M.bind_step_err _ _ _ _ _ hval
    by_cases hk : c.keep_intermediate_files
    all_goals
      simp [runMain, h, htb, cleanupFinally, logE, M.bind_apply, M.ite_app, M.pure_apply, hk,
        invokedOf_append, missingLogged_append, invokedOf_missing_map,
        missingLogged_missing_map, stageEntered_not_mem_missing_map,
        invokedOf_cons_checking, missingLogged_cons_checking,
        invokedOf_fin, invokedOf_fin_clean, missingLogged_fin, missingLogged_fin_clean]
    all_goals
      simp [St0, invokedOf_nil, missingLogged_nil, invokedOf_append, missingLogged_append, invokedOf_missing_map,
        missingLogged_missing_map, stageEntered_not_mem_missing_map,
        invokedOf_cons_checking, missingLogged_cons_checking,
        invokedOf_fin, invokedOf_fin_clean, missingLogged_fin, missingLogged_fin_clean]

/-- Witness for C5: resuming from cropping over an empty filesystem exits
with status 1, logs the one missing input, runs nothing; starting from
the first stage skips the validator entirely. -/
theorem c5_witness :
    (runMain cW aFromCropping oW []).exitCode = 1 ∧
    invokedOf (runMain cW aFromCropping oW []).events = [] ∧
    missingLogged (runMain cW aFromCropping oW []).events = [stage1_json cW] ∧
    tryBlock cW aFull oW = stagesSeq cW aFull oW := by
  have h := c5_validator_accumulates cW aFromCropping oW [] rfl
  have h2 := h.2 (by decide) (by decide)
  refine ⟨h2.1, h2.2.1, ?_, ?_⟩
  · rw [h2.2.2.2]
    decide
  · exact (c5_validator_accumulates cW aFull oW [] rfl).1 rfl

/-- Claim C2 counterexample: with run-only = cropping (start-from
cropping, stage-1 results present, non-empty crop definitions) the run
exits successfully right after the crop-definition sub-step: the
crop-image materializer — the second sub-step of the composite stage —
is never invoked, contradicting the claim that both sub-steps execute
before the run-only termination. -/
theorem c2_cropping_single_substep_cex :
    (runMain cW aOnlyCropping oW fsStage1).exitCode = 0 ∧
    invokedOf (runMain cW aOnlyCropping oW fsStage1).events = [StepId.defineCrops] ∧
    Event.exitByRequest Stage.cropping ∈ (runMain cW aOnlyCropping oW fsStage1).events ∧
    StepId.createCrops ∉ invokedOf (runMain cW aOnlyCropping oW fsStage1).events := by
  refine ⟨by decide, by decide, by decide, by decide⟩

def NeverOk {α : Type} (m : M α) : Prop :=
  ∀ (st st' : St) (v : α), m st ≠ (Except.ok v, st')

theorem neverOk_bind_left {α β : Type} (x : M α) (f : α → M β)
    (hx : NeverOk x) : NeverOk (x >>= f) := by
  intro st st' v h
  rcases hxs : x st with ⟨res, st1⟩
  rw [M.bind_apply, hxs] at h
  rcases res with ab | a
  · cases h
  · exact hx st st1 a hxs

theorem neverOk_bind_right {α β : Type} (x : M α) (f : α → M β)
    (hf : ∀ a, NeverOk (f a)) : NeverOk (x >>= f) := by
  intro st st' v h
  rcases hxs : x st with ⟨res, st1⟩
  rw [M.bind_apply, hxs] at h
  rcases res with ab | a
  · cases h
  · exact hf a st1 st' v h

theorem neverOk_ite {α : Type} (p : Prop) [Decidable p] (t e : M α)
    (ht : NeverOk t) (he : NeverOk e) : NeverOk (if p then t else e) := by
  by_cases hp : p
  · rw [if_pos hp]; exact ht
  · rw [if_neg hp]; exact he

theorem neverOk_throwA {α : Type} (ab : Abort) : NeverOk (throwA (α := α) ab) := by
  intro st st' v h
  cases h

theorem neverOk_runOnlyExit (a : ArgsV) (u : Stage)
    (h : a.run_only_stage = some u) : NeverOk (runOnlyExit a u) := by
  intro st st' v hh
  simp [runOnlyExit, h, M.bind_apply, M.ite_app, logE, throwA] at hh

theorem runStage_runonly_neverOk (c : Cfg) (a : ArgsV) (o : Oracle) (s : Stage)
    (hro : a.run_only_stage = some s) (hsr : should_run a s = true) :
    NeverOk (runStage c a o s) := by
  cases s <;>
    (simp only [runStage, hsr, eq_self_iff_true, if_true]
     repeat
       first
         | (exact neverOk_runOnlyExit _ _ hro)
         | (exact neverOk_throwA _)
         | (apply neverOk_bind_left _ _ (neverOk_runOnlyExit _ _ hro))
         | (apply neverOk_bind_left _ _ (neverOk_throwA _))
         | (apply neverOk_bind_right; intro _)
         | (apply neverOk_ite)
         | (dsimp only))

def AppendsOnly (s : List Event) {α : Type} (m : M α) : Prop :=
  ∀ (st : St) (e : Event), e ∈ (m st).2.events → e ∈ st.events ∨ e ∈ s

theorem ao_bind {α β : Type} (x : M α) (f : α → M β) (s : List Event)
    (hx : AppendsOnly s x) (hf : ∀ a, AppendsOnly s (f a)) : AppendsOnly s (x >>= f) := by
  intro st e he
  rcases hxs : x st with ⟨res, st1⟩
  rw [M.bind_apply, hxs] at he
  rcases res with ab | a
  · exact hx st e (by rw [hxs]; exact he)
  · rcases hf a st1 e he with h1 | h1
    · exact hx st e (by rw [hxs]; exact h1)
    · exact Or.inr h1

theorem ao_bind_dead {α β : Type} (x : M α) (f : α → M β) (s : List Event)
    (hnx : NeverOk x) (hx : AppendsOnly s x) : AppendsOnly s (x >>= f) := by
  intro st e he
  rcases hxs : x st with ⟨res, st1⟩
  rw [M.bind_apply, hxs] at he
  rcases res with ab | a
  · exact hx st e (by rw [hxs]; exact he)
  · exact absurd hxs (hnx st st1 a)

theorem ao_ite (s : List Event) {α : Type} (p : Prop) [Decidable p] (tb eb : M α)
    (ht : AppendsOnly s tb) (he : AppendsOnly s eb) : AppendsOnly s (if p then tb else eb) := by
  by_cases hp : p
  · rw [if_pos hp]; exact ht
  · rw [if_neg hp]; exact he

theorem ao_pure {α : Type} (s : List Event) (a : α) : AppendsOnly s (pure a : M α) :=
  fun _ _ he => Or.inl he

theorem ao_throwA {α : Type} (s : List Event) (ab : Abort) :
    AppendsOnly s (throwA (α := α) ab) :=
  fun _ _ he => Or.inl he

theorem ao_logE (s : List Event) (ev : Event) (h : ev ∈ s) : AppendsOnly s (logE ev) := by
  intro st e he
  rcases List.mem_append.mp he with h1 | h1
  · exact Or.inl h1
  · rw [List.mem_singleton.mp h1]
    exact Or.inr h

theorem ao_of_fixed {α : Type} (s : List Event) (m : M α)
    (h : ∀ st, (m st).2.events = st.events) : AppendsOnly s m :=
  fun st _ he => Or.inl (h st ▸ he)

theorem ao_stepsSet (s : List Event) (k : Key) (v : PyVal) : AppendsOnly s (stepsSet k v) :=
  ao_of_fixed s _ (fun _ => rfl)

theorem ao_stepsGet (s : List Event) (k : Key) : AppendsOnly s (stepsGet k) := by
  apply ao_of_fixed
  intro st
  unfold stepsGet
  rcases Steps.find st.steps k <;> rfl

theorem ao_stepsContains (s : List Event) (k : Key) : AppendsOnly s (stepsContains k) :=
  ao_of_fixed s _ (fun _ => rfl)

theorem ao_fsExistsM (s : List Event) (p : FPath) : AppendsOnly s (fsExistsM p) :=
  ao_of_fixed s _ (fun _ => rfl)

theorem ao_fsMove (s : List Event) (p q : FPath) : AppendsOnly s (fsMove p q) := by
  apply ao_of_fixed
  intro st
  unfold fsMove
  rcases FS.find st.fs p <;> rfl

theorem ao_fsRmtreeM (s : List Event) (p : FPath) : AppendsOnly s (fsRmtreeM p) :=
  ao_of_fixed s _ (fun _ => rfl)

theorem ao_fsWriteJson (s : List Event) (p : FPath) : AppendsOnly s (fsWriteJson p) :=
  ao_of_fixed s _ (fun _ => rfl)

theorem ao_applyWrites (s : List Event) (ws : List (FPath × Entry)) :
    AppendsOnly s (applyWrites ws) :=
  ao_of_fixed s _ (fun _ => rfl)

theorem ao_time_step (s : List Event) (o : Oracle) (sid : StepId)
    (h1 : Event.invoked sid ∈ s) (h2 : Event.stepFailedLog sid ∈ s) :
    AppendsOnly s (time_step o sid) := by
  unfold time_step
  apply ao_bind _ _ _ (ao_logE _ _ h1)
  intro _
  apply ao_bind _ _ _ (ao_applyWrites _ _)
  intro _
  apply ao_ite
  · apply ao_bind _ _ _ (ao_logE _ _ h2)
    intro _
    exact ao_throwA _ _
  · exact ao_pure _ _

theorem ao_runOnlyExit (s : List Event) (a : ArgsV) (u : Stage)
    (h : Event.exitByRequest u ∈ s) : AppendsOnly s (runOnlyExit a u) := by
  unfold runOnlyExit
  apply ao_ite
  · apply ao_bind _ _ _ (ao_logE _ _ h)
    intro _
    exact ao_throwA _ _
  · exact ao_pure _ _

/-- The events the stage block of a given stage can append to the log. -/
def blockEvents : Stage → List Event
  | Stage.start =>
      [Event.stageEntered Stage.start, Event.invoked StepId.bridge1,
       Event.stepFailedLog StepId.bridge1, Event.warned Warn.stage1TargetExists,
       Event.exitByRequest Stage.start]
  | Stage.cropping =>
      [Event.stageEntered Stage.cropping, Event.invoked StepId.defineCrops,
       Event.stepFailedLog StepId.defineCrops, Event.warned Warn.noCropDefsGenerated,
       Event.exitByRequest Stage.cropping, Event.invoked StepId.createCrops,
       Event.stepFailedLog StepId.createCrops, Event.warned Warn.skipCreateCropImages]
  | Stage.bridge_stage2 =>
      [Event.stageEntered Stage.bridge_stage2, Event.invoked StepId.bridge2,
       Event.stepFailedLog StepId.bridge2, Event.warned Warn.stage2TargetExists,
       Event.exitByRequest Stage.bridge_stage2]
  | Stage.filter_duplicates =>
      [Event.stageEntered Stage.filter_duplicates, Event.invoked StepId.filterDup,
       Event.stepFailedLog StepId.filterDup, Event.exitByRequest Stage.filter_duplicates]
  | Stage.vlm1_recognition =>
      [Event.stageEntered Stage.vlm1_recognition, Event.invoked StepId.vlm1Rec,
       Event.stepFailedLog StepId.vlm1Rec, Event.exitByRequest Stage.vlm1_recognition]
  | Stage.vlm2_recognition =>
      [Event.stageEntered Stage.vlm2_recognition, Event.invoked StepId.vlm2Rec,
       Event.stepFailedLog StepId.vlm2Rec, Event.exitByRequest Stage.vlm2_recognition]
  | Stage.vlm_filtering =>
      [Event.stageEntered Stage.vlm_filtering, Event.invoked StepId.filterEmpty1,
       Event.stepFailedLog StepId.filterEmpty1, Event.invoked StepId.filterEmpty2,
       Event.stepFailedLog StepId.filterEmpty2, Event.exitByRequest Stage.vlm_filtering]
  | Stage.vlm_comparison =>
      [Event.stageEntered Stage.vlm_comparison, Event.invoked StepId.compareMerge,
       Event.stepFailedLog StepId.compareMerge, Event.exitByRequest Stage.vlm_comparison]
  | Stage.agreement_extraction =>
      [Event.stageEntered Stage.agreement_extraction, Event.invoked StepId.identifyAgreed,
       Event.stepFailedLog StepId.identifyAgreed, Event.invoked StepId.extractAgreed,
       Event.stepFailedLog StepId.extractAgreed, Event.exitByRequest Stage.agreement_extraction]
  | Stage.blur_assessment =>
      [Event.stageEntered Stage.blur_assessment, Event.invoked StepId.blurAssess,
       Event.stepFailedLog StepId.blurAssess, Event.exitByRequest Stage.blur_assessment]
  | Stage.blur_tag_filter =>
      [Event.stageEntered Stage.blur_tag_filter, Event.invoked StepId.tagBlur,
       Event.stepFailedLog StepId.tagBlur, Event.invoked StepId.filterBlur,
       Event.stepFailedLog StepId.filterBlur, Event.exitByRequest Stage.blur_tag_filter]
  | Stage.final_formatting =>
      [Event.stageEntered Stage.final_formatting, Event.invoked StepId.formatFull,
       Event.stepFailedLog StepId.formatFull, Event.invoked StepId.formatRestoration,
       Event.stepFailedLog StepId.formatRestoration, Event.exitByRequest Stage.final_formatting]

set_option maxRecDepth 8000 in
set_option maxHeartbeats 1600000 in
theorem runStage_appendsOnly (c : Cfg) (a : ArgsV) (o : Oracle) (u : Stage) :
    AppendsOnly (blockEvents u) (runStage c a o u) := by
  cases u <;>
    (simp only [runStage]
     repeat
       first
         | (exact ao_pure _ _)
         | (exact ao_throwA _ _)
         | (apply ao_runOnlyExit <;> decide)
         | (apply ao_time_step <;> decide)
         | (apply ao_logE <;> decide)
         | (exact ao_stepsSet _ _ _)
         | (exact ao_stepsGet _ _)
         | (exact ao_stepsContains _ _)
         | (exact ao_fsExistsM _ _)
         | (exact ao_fsMove _ _ _)
         | (exact ao_fsRmtreeM _ _)
         | (exact ao_fsWriteJson _ _)
         | (exact ao_applyWrites _ _)
         | (refine ao_bind _ _ _ ?_ (fun _ => ?_))
         | (apply ao_ite)
         | (dsimp only))

/-- The events the cropping block can append when cropping is the
requested run-only stage: the exit precedes the second sub-step, so no
crop-image materializer events can occur. -/
def croppingROEvents : List Event :=
  [Event.stageEntered Stage.cropping, Event.invoked StepId.defineCrops,
   Event.stepFailedLog StepId.defineCrops, Event.warned Warn.noCropDefsGenerated,
   Event.exitByRequest Stage.cropping]

theorem cropping_runonly_appendsOnly (c : Cfg) (a : ArgsV) (o : Oracle)
    (hro : a.run_only_stage = some Stage.cropping) :
    AppendsOnly croppingROEvents (runStage c a o Stage.cropping) := by
  simp only [runStage]
  repeat
    first
      | (refine ao_bind_dead _ _ _ (neverOk_runOnlyExit _ _ hro) ?_)
      | (exact ao_pure _ _)
      | (exact ao_throwA _ _)
      | (apply ao_runOnlyExit <;> decide)
      | (apply ao_time_step <;> decide)
      | (apply ao_logE <;> decide)
      | (exact ao_stepsSet _ _ _)
      | (exact ao_stepsGet _ _)
      | (exact ao_stepsContains _ _)
      | (exact ao_fsWriteJson _ _)
      | (refine ao_bind _ _ _ ?_ (fun _ => ?_))
      | (apply ao_ite)
      | (dsimp only)

theorem stageEntered_blockEvents (t u : Stage)
    (h : Event.stageEntered t ∈ blockEvents u) : t = u := by
  revert h; cases t <;> cases u <;> decide

theorem runStage_event_preserved (c : Cfg) (a : ArgsV) (o : Oracle) (u : Stage)
    (e : Event) (he : e ∉ blockEvents u) (st : St)
    (h : e ∈ ((runStage c a o u) st).2.events) : e ∈ st.events := by
  rcases runStage_appendsOnly c a o u st e h with h1 | h1
  · exact h1
  · exact absurd h1 he

theorem runFrom_event_stopped (c : Cfg) (a : ArgsV) (o : Oracle) (s : Stage) (e : Event)
    (hns : NeverOk (runStage c a o s))
    (hs : ∀ st, e ∈ ((runStage c a o s) st).2.events → e ∈ st.events)
    (L1 L2 : List Stage) (hL : ∀ u ∈ L1, e ∉ blockEvents u) (st : St)
    (h : e ∈ ((runFrom c a o (L1 ++ s :: L2)) st).2.events) : e ∈ st.events := by
  induction L1 generalizing st with
  | nil =>
      have heq : runFrom c a o ([] ++ s :: L2) st =
          (runStage c a o s >>= fun _ => runFrom c a o L2) st := rfl
      rw [heq] at h
      rcases hx : runStage c a o s st with ⟨res, st1⟩
      rcases res with ab | v
      · rw [M.bind_step_err _ _ _ _ _ hx] at h
        exact hs st (by rw [hx]; exact h)
      · exact absurd hx (hns st st1 v)
  | cons u L1 ih =>
      have heq : runFrom c a o ((u :: L1) ++ s :: L2) st =
          (runStage c a o u >>= fun _ => runFrom c a o (L1 ++ s :: L2)) st := rfl
      rw [heq] at h
      rcases hx : runStage c a o u st with ⟨res, st1⟩
      rcases res with ab | v
      · rw [M.bind_step_err _ _ _ _ _ hx] at h
        exact runStage_event_preserved c a o u e (hL u (by simp)) st (by rw [hx]; exact h)
      · rw [M.bind_step_ok _ _ _ _ _ hx] at h
        have h1 := ih (fun w hw => hL w (by simp [hw])) st1 h
        exact runStage_event_preserved c a o u e (hL u (by simp)) st (by rw [hx]; exact h1)

theorem stageOrder_decomp (s : Stage) :
    ∃ L1 L2, stageOrder = L1 ++ s :: L2 ∧ ∀ u ∈ L1, u.idx < s.idx := by
  cases s with
  | start => exact ⟨[], _, rfl, by decide⟩
  | cropping => exact ⟨[Stage.start], _, rfl, by decide⟩
  | bridge_stage2 => exact ⟨[Stage.start, Stage.cropping], _, rfl, by decide⟩
  | filter_duplicates =>
      exact ⟨[Stage.start, Stage.cropping, Stage.bridge_stage2], _, rfl, by decide⟩
  | vlm1_recognition =>
      exact ⟨[Stage.start, Stage.cropping, Stage.bridge_stage2, Stage.filter_duplicates],
        _, rfl, by decide⟩
  | vlm2_recognition =>
      exact ⟨[Stage.start, Stage.cropping, Stage.bridge_stage2, Stage.filter_duplicates,
        Stage.vlm1_recognition], _, rfl, by decide⟩
  | vlm_filtering =>
      exact ⟨[Stage.start, Stage.cropping, Stage.bridge_stage2, Stage.filter_duplicates,
        Stage.vlm1_recognition, Stage.vlm2_recognition], _, rfl, by decide⟩
  | vlm_comparison =>
      exact ⟨[Stage.start, Stage.cropping, Stage.bridge_stage2, Stage.filter_duplicates,
        Stage.vlm1_recognition, Stage.vlm2_recognition, Stage.vlm_filtering], _, rfl, by decide⟩
  | agreement_extraction =>
      exact ⟨[Stage.start, Stage.cropping, Stage.bridge_stage2, Stage.filter_duplicates,
        Stage.vlm1_recognition, Stage.vlm2_recognition, Stage.vlm_filtering,
        Stage.vlm_comparison], _, rfl, by decide⟩
  | blur_assessment =>
      exact ⟨[Stage.start, Stage.cropping, Stage.bridge_stage2, Stage.filter_duplicates,
        Stage.vlm1_recognition, Stage.vlm2_recognition, Stage.vlm_filtering,
        Stage.vlm_comparison, Stage.agreement_extraction], _, rfl, by decide⟩
  | blur_tag_filter =>
      exact ⟨[Stage.start, Stage.cropping, Stage.bridge_stage2, Stage.filter_duplicates,
        Stage.vlm1_recognition, Stage.vlm2_recognition, Stage.vlm_filtering,
        Stage.vlm_comparison, Stage.agreement_extraction, Stage.blur_assessment],
        _, rfl, by decide⟩
  | final_formatting =>
      exact ⟨[Stage.start, Stage.cropping, Stage.bridge_stage2, Stage.filter_duplicates,
        Stage.vlm1_recognition, Stage.vlm2_recognition, Stage.vlm_filtering,
        Stage.vlm_comparison, Stage.agreement_extraction, Stage.blur_assessment,
        Stage.blur_tag_filter], _, rfl, by decide⟩

theorem stagesSeq_event_stopped (c : Cfg) (a : ArgsV) (o : Oracle) (s : Stage) (e : Event)
    (hns : NeverOk (runStage c a o s))
    (hs : ∀ st, e ∈ ((runStage c a o s) st).2.events → e ∈ st.events)
    (hL : ∀ u : Stage, u.idx < s.idx → e ∉ blockEvents u) (st : St)
    (h : e ∈ ((stagesSeq c a o) st).2.events) : e ∈ st.events := by
  obtain ⟨L1, L2, hdec, hlt⟩ := stageOrder_decomp s
  have hq : stagesSeq c a o = runFrom c a o stageOrder := rfl
  rw [hq, hdec] at h
  exact runFrom_event_stopped c a o s e hns hs L1 L2 (fun u hu => hL u (hlt u hu)) st h

theorem check_inputs_event (c : Cfg) (s' : Stage) (e : Event) (st : St)
    (he1 : ∀ t, e ≠ Event.checkingInputs t) (he2 : ∀ p, e ≠ Event.missingInput p)
    (h : e ∈ ((check_required_inputs c s') st).2.events) : e ∈ st.events := by
  by_cases hall : (requiredInputs c s').all (fun r => reqSatisfied st.fs r) = true
  · rw [check_inputs_ok c s' st hall] at h
    simp only [List.mem_append, List.mem_singleton] at h
    rcases h with h | h
    · exact h
    · exact absurd h (he1 s')
  · rw [check_inputs_fail c s' st (by simpa using hall)] at h
    simp only [List.mem_append, List.mem_cons, List.mem_map] at h
    rcases h with h | h | ⟨r, _, hr⟩
    · exact h
    · exact absurd h (he1 s')
    · exact absurd hr.symm (he2 r.path)

theorem tryBlock_event_stopped (c : Cfg) (a : ArgsV) (o : Oracle) (s : Stage) (e : Event)
    (hns : NeverOk (runStage c a o s))
    (hs : ∀ st, e ∈ ((runStage c a o s) st).2.events → e ∈ st.events)
    (hL : ∀ u : Stage, u.idx < s.idx → e ∉ blockEvents u)
    (he1 : ∀ t, e ≠ Event.checkingInputs t) (he2 : ∀ p, e ≠ Event.missingInput p)
    (st : St) (h : e ∈ ((tryBlock c a o) st).2.events) : e ∈ st.events := by
  have hq : tryBlock c a o st =
      (if a.start_from ≠ Stage.start then
        (check_required_inputs c a.start_from >>= fun _ => stagesSeq c a o)
      else (pure PUnit.unit >>= fun _ => stagesSeq c a o)) st := rfl
  rw [hq] at h
  by_cases hstart : a.start_from = Stage.start
  · rw [if_neg (by simp [hstart])] at h
    have hp : (pure PUnit.unit >>= fun _ => stagesSeq c a o) st = stagesSeq c a o st := rfl
    rw [hp] at h
    exact stagesSeq_event_stopped c a o s e hns hs hL st h
  · rw [if_pos hstart] at h
    rcases hc : check_required_inputs c a.start_from st with ⟨cres, st1⟩
    rcases cres with ab | v
    · rw [M.bind_step_err _ _ _ _ _ hc] at h
      exact check_inputs_event c a.start_from e st he1 he2 (by rw [hc]; exact h)
    · rw [M.bind_step_ok _ _ _ _ _ hc] at h
      have h1 := stagesSeq_event_stopped c a o s e hns hs hL st1 h
      exact check_inputs_event c a.start_from e st he1 he2 (by rw [hc]; exact h1)

theorem runMain_event_provenance (c : Cfg) (a : ArgsV) (o : Oracle) (fs0 : FS) (e : Event)
    (hrr : runOnlyRejected a = false)
    (hfin : e ≠ Event.finallyEntered) (hcln : e ≠ Event.cleaningUp)
    (herr : ∀ er, e ≠ Event.errorCaught er)
    (h : e ∈ (runMain c a o fs0).events) :
    e ∈ ((tryBlock c a o) (St0 c fs0)).2.events := by
  rcases hp : tryBlock c a o (St0 c fs0) with ⟨res, stq⟩
  rcases res with (n | er) | v <;> by_cases hk : c.keep_intermediate_files = true <;>
    (simp [runMain, hrr, hp, cleanupFinally, logE, M.bind_apply, M.ite_app, M.pure_apply,
       hk, hfin, hcln, herr] at h
     exact h)

theorem mem_invokedOf (sid : StepId) (evs : List Event) :
    sid ∈ invokedOf evs ↔ Event.invoked sid ∈ evs := by
  simp only [invokedOf, List.mem_filterMap]
  constructor
  · rintro ⟨e, he, hf⟩
    cases e <;> simp_all
  · intro h
    exact ⟨Event.invoked sid, h, rfl⟩

/-- Claim C2 (amended): whenever a run-only stage `s` is requested and the
request survives the CLI ordering check, (1) the stage block of `s` never
falls through to its continuation, (2) if the `try` block ends with the
run-only `sys.exit(0)` the process terminates successfully with no caught
exception, (3) no stage ordered after `s` is ever entered, and (4) for the
composite cropping stage the crop-image materializer is never invoked,
the exit being placed between the two sub-steps. -/
theorem c2_run_only_stage_exits (c : Cfg) (a : ArgsV) (o : Oracle) (fs0 : FS) (s : Stage)
    (hro : a.run_only_stage = some s) (hrr : runOnlyRejected a = false) :
    (∀ (st st' : St), runStage c a o s st ≠ (Except.ok (), st')) ∧
    ((tryBlock c a o (St0 c fs0)).1 = Except.error (Abort.sysExit 0) →
      (runMain c a o fs0).exitCode = 0 ∧ (runMain c a o fs0).caught = none) ∧
    (∀ t : Stage, s.idx < t.idx → Event.stageEntered t ∉ (runMain c a o fs0).events) ∧
    (s = Stage.cropping → StepId.createCrops ∉ invokedOf (runMain c a o fs0).events) := by
  have hsr : should_run a s = true := by
    simp [runOnlyRejected, hro] at hrr
    simp [should_run]
    omega
  have hns := runStage_runonly_neverOk c a o s hro hsr
  refine ⟨fun st st' => hns st st' (), ?_, ?_, ?_⟩
  · intro htb
    rcases hp : tryBlock c a o (St0 c fs0) with ⟨res, stq⟩
    rw [hp] at htb
    have hres : res = Except.error (Abort.sysExit 0) := htb
    subst hres
    constructor <;>
      simp [runMain, hrr, hp, cleanupFinally, logE, M.bind_apply, M.ite_app, M.pure_apply]
  · intro t hst hmem
    have h1 : Event.stageEntered t ∈ ((tryBlock c a o) (St0 c fs0)).2.events :=
      runMain_event_provenance c a o fs0 _ hrr (by simp) (by simp) (fun er => by simp) hmem
    have h2 : Event.stageEntered t ∈ (St0 c fs0).events := by
      refine tryBlock_event_stopped c a o s _ hns ?_ ?_ (fun u => by simp) (fun p => by simp)
        (St0 c fs0) h1
      · intro st hm
        refine runStage_event_preserved c a o s _ ?_ st hm
        intro hc
        have hts := stageEntered_blockEvents t s hc
        subst hts
        exact absurd hst (lt_irrefl _)
      · intro u hu hc
        have htu := stageEntered_blockEvents t u hc
        subst htu
        omega
    simp [St0] at h2
  · intro hsc hmem
    subst hsc
    rw [mem_invokedOf] at hmem
    have h1 : Event.invoked StepId.createCrops ∈ ((tryBlock c a o) (St0 c fs0)).2.events :=
      runMain_event_provenance c a o fs0 _ hrr (by simp) (by simp) (fun er => by simp) hmem
    have h2 : Event.invoked StepId.createCrops ∈ (St0 c fs0).events := by
      refine tryBlock_event_stopped c a o Stage.cropping _ hns ?_ ?_
        (fun u => by simp) (fun p => by simp) (St0 c fs0) h1
      · intro st hm
        rcases cropping_runonly_appendsOnly c a o hro st _ hm with hx | hx
        · exact hx
        · exact absurd hx (by decide)
      · intro u hu
        revert hu
        cases u <;> decide
    simp [St0] at h2

/-- Witness for C2 at a concrete run. -/
theorem c2_witness :
    aOnlyCropping.run_only_stage = some Stage.cropping ∧
    runOnlyRejected aOnlyCropping = false ∧
    Event.stageEntered Stage.bridge_stage2 ∉
      (runMain cW aOnlyCropping oW fsStage1).events ∧
    StepId.createCrops ∉ invokedOf (runMain cW aOnlyCropping oW fsStage1).events :=
  ⟨rfl, by decide,
   (c2_run_only_stage_exits cW aOnlyCropping oW fsStage1 Stage.cropping rfl
     (by decide)).2.2.1 Stage.bridge_stage2 (by decide),
   (c2_run_only_stage_exits cW aOnlyCropping oW fsStage1 Stage.cropping rfl
     (by decide)).2.2.2 rfl⟩

/-- The CLI arguments of the spec's Scenario A: start and run-only both
vlm1_recognition. -/
def aOnlyVlm1 : ArgsV :=
  { start_from := Stage.vlm1_recognition, run_only_stage := some Stage.vlm1_recognition }

/-- Claim C3 (Scenario A): with start-from and run-only both
vlm1_recognition, the filtered second-pass results present and the
crop-image directory populated, the run invokes exactly one collaborator
(model-1 recognition), its output document is on disk afterwards, no
exception is caught, and the process terminates successfully. -/
theorem c3_scenario_a (c : Cfg) (o : Oracle) (fs0 : FS)
    (hkeep : c.keep_intermediate_files = true)
    (hf : fsHas (ensureDirs c fs0) (stage2_filtered_json c) = true)
    (hd : populatedDir (ensureDirs c fs0) (crop_image_dir c) = true)
    (hret : o.ret StepId.vlm1Rec ≠ PyVal.noneV)
    (hw : o.writes StepId.vlm1Rec = [(vlm1_raw_json c, Entry.fileE)]) :
    (runMain c aOnlyVlm1 o fs0).exitCode = 0 ∧
    (runMain c aOnlyVlm1 o fs0).caught = none ∧
    invokedOf (runMain c aOnlyVlm1 o fs0).events = [StepId.vlm1Rec] ∧
    FS.find (runMain c aOnlyVlm1 o fs0).fsAfter (vlm1_raw_json c) = some Entry.fileE := by
  have hall : (requiredInputs c Stage.vlm1_recognition).all
      (fun r => reqSatisfied (St0 c fs0).fs r) = true := by
    simp [requiredInputs, reqSatisfied, St0, hf, hd]
  have hval : check_required_inputs c Stage.vlm1_recognition (St0 c fs0) =
      (Except.ok (),
       { fs := ensureDirs c fs0,
         events := [Event.checkingInputs Stage.vlm1_recognition], steps := [] }) := by
    have h1 := check_inputs_ok c Stage.vlm1_recognition (St0 c fs0) hall
    simpa [St0] using h1
  have hsk1 : runStage c aOnlyVlm1 o Stage.start
      { fs := ensureDirs c fs0,
        events := [Event.checkingInputs Stage.vlm1_recognition], steps := [] } =
      (Except.ok (),
       { fs := ensureDirs c fs0,
         events := [Event.checkingInputs Stage.vlm1_recognition,
           Event.stageEntered Stage.start],
         steps := [(Key.stage1_json, PyVal.strV (stage1_json c))] }) := by
    have h1 := runStage_skipped c aOnlyVlm1 o Stage.start
      { fs := ensureDirs c fs0,
        events := [Event.checkingInputs Stage.vlm1_recognition], steps := [] } rfl
    simpa [adoptDefaults, Steps.find] using h1
  have hsk2 : runStage c aOnlyVlm1 o Stage.cropping
      { fs := ensureDirs c fs0,
        events := [Event.checkingInputs Stage.vlm1_recognition,
          Event.stageEntered Stage.start],
        steps := [(Key.stage1_json, PyVal.strV (stage1_json c))] } =
      (Except.ok (),
       { fs := ensureDirs c fs0,
         events := [Event.checkingInputs Stage.vlm1_recognition,
           Event.stageEntered Stage.start, Event.stageEntered Stage.cropping],
         steps := [(Key.crop_image_dir, PyVal.strV (crop_image_dir c)),
           (Key.stage1_json, PyVal.strV (stage1_json c))] }) := by
    have h1 := runStage_skipped c aOnlyVlm1 o Stage.cropping
      { fs := ensureDirs c fs0,
        events := [Event.checkingInputs Stage.vlm1_recognition,
          Event.stageEntered Stage.start],
        steps := [(Key.stage1_json, PyVal.strV (stage1_json c))] } rfl
    simpa [adoptDefaults, Steps.find] using h1
  have hsk3 : runStage c aOnlyVlm1 o Stage.bridge_stage2
      { fs := ensureDirs c fs0,
        events := [Event.checkingInputs Stage.vlm1_recognition,
          Event.stageEntered Stage.start, Event.stageEntered Stage.cropping],
        steps := [(Key.crop_image_dir, PyVal.strV (crop_image_dir c)),
          (Key.stage1_json, PyVal.strV (stage1_json c))] } =
      (Except.ok (),
       { fs := ensureDirs c fs0,
         events := [Event.checkingInputs Stage.vlm1_recognition,
           Event.stageEntered Stage.start, Event.stageEntered Stage.cropping,
           Event.stageEntered Stage.bridge_stage2],
         steps := [(Key.stage2_raw_json, PyVal.strV (stage2_raw_json c)),
           (Key.crop_image_dir, PyVal.strV (crop_image_dir c)),
           (Key.stage1_json, PyVal.strV (stage1_json c))] }) := by
    have h1 := runStage_skipped c aOnlyVlm1 o Stage.bridge_stage2
      { fs := ensureDirs c fs0,
        events := [Event.checkingInputs Stage.vlm1_recognition,
          Event.stageEntered Stage.start, Event.stageEntered Stage.cropping],
        steps := [(Key.crop_image_dir, PyVal.strV (crop_image_dir c)),
          (Key.stage1_json, PyVal.strV (stage1_json c))] } rfl
    simpa [adoptDefaults, Steps.find] using h1
  have hsk4 : runStage c aOnlyVlm1 o Stage.filter_duplicates
      { fs := ensureDirs c fs0,
        events := [Event.checkingInputs Stage.vlm1_recognition,
          Event.stageEntered Stage.start, Event.stageEntered Stage.cropping,
          Event.stageEntered Stage.bridge_stage2],
        steps := [(Key.stage2_raw_json, PyVal.strV (stage2_raw_json c)),
          (Key.crop_image_dir, PyVal.strV (crop_image_dir c)),
          (Key.stage1_json, PyVal.strV (stage1_json c))] } =
      (Except.ok (),
       { fs := ensureDirs c fs0,
         events := [Event.checkingInputs Stage.vlm1_recognition,
           Event.stageEntered Stage.start, Event.stageEntered Stage.cropping,
           Event.stageEntered Stage.bridge_stage2,
           Event.stageEntered Stage.filter_duplicates],
         steps := [(Key.stage2_filtered_json, PyVal.strV (stage2_filtered_json c)),
           (Key.stage2_raw_json, PyVal.strV (stage2_raw_json c)),
           (Key.crop_image_dir, PyVal.strV (crop_image_dir c)),
           (Key.stage1_json, PyVal.strV (stage1_json c))] }) := by
    have h1 := runStage_skipped c aOnlyVlm1 o Stage.filter_duplicates
      { fs := ensureDirs c fs0,
        events := [Event.checkingInputs Stage.vlm1_recognition,
          Event.stageEntered Stage.start, Event.stageEntered Stage.cropping,
          Event.stageEntered Stage.bridge_stage2],
        steps := [(Key.stage2_raw_json, PyVal.strV (stage2_raw_json c)),
          (Key.crop_image_dir, PyVal.strV (crop_image_dir c)),
          (Key.stage1_json, PyVal.strV (stage1_json c))] } rfl
    simpa [adoptDefaults, Steps.find] using h1
  have hvlm := runStage_vlm1_runonly c aOnlyVlm1 o
      { fs := ensureDirs c fs0,
        events := [Event.checkingInputs Stage.vlm1_recognition,
          Event.stageEntered Stage.start, Event.stageEntered Stage.cropping,
          Event.stageEntered Stage.bridge_stage2,
          Event.stageEntered Stage.filter_duplicates],
        steps := [(Key.stage2_filtered_json, PyVal.strV (stage2_filtered_json c)),
          (Key.stage2_raw_json, PyVal.strV (stage2_raw_json c)),
          (Key.crop_image_dir, PyVal.strV (crop_image_dir c)),
          (Key.stage1_json, PyVal.strV (stage1_json c))] }
      (PyVal.strV (stage2_filtered_json c)) (PyVal.strV (crop_image_dir c))
      rfl rfl rfl rfl hret
  have htry : tryBlock c aOnlyVlm1 o (St0 c fs0) =
      (Except.error (Abort.sysExit 0),
       { fs := applyWritesFs (o.writes StepId.vlm1Rec) (ensureDirs c fs0),
         events := [Event.checkingInputs Stage.vlm1_recognition,
           Event.stageEntered Stage.start, Event.stageEntered Stage.cropping,
           Event.stageEntered Stage.bridge_stage2,
           Event.stageEntered Stage.filter_duplicates] ++
           [Event.stageEntered Stage.vlm1_recognition, Event.invoked StepId.vlm1Rec,
            Event.exitByRequest Stage.vlm1_recognition],
         steps := (Key.vlm1_raw_json, o.ret StepId.vlm1Rec) ::
           [(Key.stage2_filtered_json, PyVal.strV (stage2_filtered_json c)),
            (Key.stage2_raw_json, PyVal.strV (stage2_raw_json c)),
            (Key.crop_image_dir, PyVal.strV (crop_image_dir c)),
            (Key.stage1_json, PyVal.strV (stage1_json c))] }) := by
    calc tryBlock c aOnlyVlm1 o (St0 c fs0)
        = stagesSeq c aOnlyVlm1 o
            { fs := ensureDirs c fs0,
              events := [Event.checkingInputs Stage.vlm1_recognition], steps := [] } := by
          unfold tryBlock
          rw [if_pos (by decide : aOnlyVlm1.start_from ≠ Stage.start)]
          exact M.bind_step_ok _ _ _ _ _ hval
      _ = runFrom c aOnlyVlm1 o
            [Stage.cropping, Stage.bridge_stage2, Stage.filter_duplicates,
             Stage.vlm1_recognition, Stage.vlm2_recognition, Stage.vlm_filtering,
             Stage.vlm_comparison, Stage.agreement_extraction, Stage.blur_assessment,
             Stage.blur_tag_filter, Stage.final_formatting] _ := by
          unfold stagesSeq stageOrder
          exact runFrom_step_ok _ _ _ _ _ _ _ hsk1
      _ = runFrom c aOnlyVlm1 o
            [Stage.bridge_stage2, Stage.filter_duplicates,
             Stage.vlm1_recognition, Stage.vlm2_recognition, Stage.vlm_filtering,
             Stage.vlm_comparison, Stage.agreement_extraction, Stage.blur_assessment,
             Stage.blur_tag_filter, Stage.final_formatting] _ :=
          runFrom_step_ok _ _ _ _ _ _ _ hsk2
      _ = runFrom c aOnlyVlm1 o
            [Stage.filter_duplicates,
             Stage.vlm1_recognition, Stage.vlm2_recognition, Stage.vlm_filtering,
             Stage.vlm_comparison, Stage.agreement_extraction, Stage.blur_assessment,
             Stage.blur_tag_filter, Stage.final_formatting] _ :=
          runFrom_step_ok _ _ _ _ _ _ _ hsk3
      _ = runFrom c aOnlyVlm1 o
            [Stage.vlm1_recognition, Stage.vlm2_recognition, Stage.vlm_filtering,
             Stage.vlm_comparison, Stage.agreement_extraction, Stage.blur_assessment,
             Stage.blur_tag_filter, Stage.final_formatting] _ :=
          runFrom_step_ok _ _ _ _ _ _ _ hsk4
      _ = (Except.error (Abort.sysExit 0), _) :=
          runFrom_step_err _ _ _ _ _ _ _ _ hvlm
  have hro : runOnlyRejected aOnlyVlm1 = false := rfl
  have hconc : (runMain c aOnlyVlm1 o fs0).exitCode = 0 ∧
      (runMain c aOnlyVlm1 o fs0).caught = none ∧
      invokedOf (runMain c aOnlyVlm1 o fs0).events = [StepId.vlm1Rec] ∧
      (runMain c aOnlyVlm1 o fs0).fsAfter =
        applyWritesFs (o.writes StepId.vlm1Rec) (ensureDirs c fs0) := by
    simp [runMain, hro, htry, cleanupFinally, logE, M.bind_apply, M.ite_app, M.pure_apply,
      hkeep, invokedOf]
  refine ⟨hconc.1, hconc.2.1, hconc.2.2.1, ?_⟩
  rw [hconc.2.2.2, hw]
  simp [applyWritesFs, FS.set, FS.find]

/-- An oracle whose model-1 recognition writes its raw output document. -/
def oVlm : Oracle :=
  { ret := fun _ => PyVal.listV 1,
    writes := fun sid =>
      if sid = StepId.vlm1Rec then [(vlm1_raw_json cW, Entry.fileE)] else [],
    readTextList := PyVal.listV 1 }

/-- A filesystem holding the filtered second-pass results and a populated
crop-image directory. -/
def fsVlm : FS :=
  [(stage2_filtered_json cW, Entry.fileE), (crop_image_dir cW, Entry.dirE 2)]

/-- Witness for C3 at a concrete run of Scenario A. -/
theorem c3_witness :
    fsHas (ensureDirs cW fsVlm) (stage2_filtered_json cW) = true ∧
    populatedDir (ensureDirs cW fsVlm) (crop_image_dir cW) = true ∧
    (runMain cW aOnlyVlm1 oVlm fsVlm).exitCode = 0 ∧
    invokedOf (runMain cW aOnlyVlm1 oVlm fsVlm).events = [StepId.vlm1Rec] ∧
    FS.find (runMain cW aOnlyVlm1 oVlm fsVlm).fsAfter (vlm1_raw_json cW) = some Entry.fileE := by
  have h := c3_scenario_a cW oVlm fsVlm rfl (by decide) (by decide) (by decide) (by decide)
  exact ⟨by decide, by decide, h.1, h.2.2.1, h.2.2.2⟩

/-- Claim C8 evaluated on the code at the failing input (code bug):
start-from = cropping, crop-definition collaborator returning an empty
non-`None` list. As the claim says, the materializer is never invoked,
the empty result only produces warnings, and the cropping stage raises no
failure; but the run does not continue through the next stage: the
bridge_stage2 block raises `KeyError('crop_image_dir')` — the executed
cropping path never bound that key into `pipeline_steps` — so the run
aborts there and the failure boundary catches the `KeyError`. -/
theorem c8_empty_crop_defs_behavior :
    invokedOf (runMain cW aFromCropping oEmptyDefs fsStage1).events = [StepId.defineCrops] ∧
    Event.warned Warn.noCropDefsGenerated ∈
      (runMain cW aFromCropping oEmptyDefs fsStage1).events ∧
    Event.warned Warn.skipCreateCropImages ∈
      (runMain cW aFromCropping oEmptyDefs fsStage1).events ∧
    Event.stepFailedLog StepId.defineCrops ∉
      (runMain cW aFromCropping oEmptyDefs fsStage1).events ∧
    Event.stageEntered Stage.bridge_stage2 ∈
      (runMain cW aFromCropping oEmptyDefs fsStage1).events ∧
    (runMain cW aFromCropping oEmptyDefs fsStage1).caught =
      some (Err.keyErr Key.crop_image_dir) ∧
    (runMain cW aFromCropping oEmptyDefs fsStage1).exitCode = 0 := by
  refine ⟨by decide, by decide, by decide, by decide, by decide, by decide, by decide⟩
